import Mathlib

/-!
# Verification of the vislog-core ingestion/normalization layer

Shallow embedding of `vislog-core/src/parsing/guid.rs` and
`vislog-core/src/parsing/mod.rs`.

Modelling conventions:
* Rust `&str` / `String` values are modelled as `List Char` (`Str` below).
  Rust's `str::len` counts UTF-8 bytes, so it is modelled by `strLen`,
  the sum of the UTF-8 sizes of the characters; `str::chars` is the list
  itself.
* Machine integers (`u8`, `usize`) are modelled as `Nat`; all values
  produced stay far below any overflow boundary except where noted.
* Fallible Rust code returning `Result` is modelled with `Except`.
* A Rust panic (an unwind, not a returned error) is modelled by the
  distinguished error value `DeError.panic`; comments mark each use.
-/

/-- Rust strings, as their character sequences. -/
abbrev Str := List Char

/-- Model of Rust `str::len`: the UTF-8 byte length of the string. -/
def strLen (s : Str) : Nat := (s.map Char.utf8Size).sum

/-! ## guid.rs : the identifier codec -/

/-- Rust `struct Guid { inner: [u8; 16] }`.  The buffer is a list of byte
values; `Guid.try_from` only ever constructs lists of length 16 with
entries below 256. -/
structure Guid where
  inner : List Nat
deriving DecidableEq, Repr

/-- Rust `enum GUIDParsingError { TooShort, TooLong, InvalidCharacter }`. -/
inductive GUIDParsingError where
  | tooShort
  | tooLong
  | invalidCharacter
deriving DecidableEq, Repr

/-- Rust `fn hex_to_num(c: char) -> Option<u8>` from guid.rs: rejects
non-ASCII characters, maps `0-9`, `a-f`, `A-F` to their hex value. -/
def hex_to_num (c : Char) : Option Nat :=
  if c.toNat > 127 then none
  else if 48 ≤ c.toNat ∧ c.toNat ≤ 57 then some (c.toNat - 48)
  else if 97 ≤ c.toNat ∧ c.toNat ≤ 102 then some (c.toNat - 97 + 10)
  else if 65 ≤ c.toNat ∧ c.toNat ≤ 70 then some (c.toNat - 65 + 10)
  else none

/-- One step of the digit scan inside `Guid::try_from`: advance through
the character iterator, skipping `'-'` (`'-' => continue`), until a
character is consumed as a hex digit.  Running out of characters is
`TooShort` (the `else` branch of `if let Some(c)`); a non-hex, non-hyphen
character is `InvalidCharacter`. -/
def nextHex : Str → Except GUIDParsingError (Nat × Str)
  | [] => .error .tooShort
  | c :: rest =>
      if c = '-' then nextHex rest
      else
        match hex_to_num c with
        | some n => .ok (n, rest)
        | none => .error .invalidCharacter

/-- The `for i in 0..16` loop of `Guid::try_from`: each byte is built
from two scanned hex digits, high nibble first
(`byte |= n << (4 * (byte_index ^ 1))`). -/
def readBytesAux : Nat → Str → Except GUIDParsingError (List Nat)
  | 0, _ => .ok []
  | n + 1, cs =>
      match nextHex cs with
      | .error e => .error e
      | .ok (hi, cs1) =>
          match nextHex cs1 with
          | .error e => .error e
          | .ok (lo, cs2) =>
              match readBytesAux n cs2 with
              | .error e => .error e
              | .ok rest => .ok ((hi * 16 + lo) :: rest)

/-- Rust `impl TryFrom<&str> for Guid`: byte-length bounds checks
(`s.len() < 32` is `TooShort`, `s.len() > 36` is `TooLong`), then the
16-byte digit scan.  Characters remaining after the 32nd consumed hex
digit are never examined. -/
def Guid.try_from (s : Str) : Except GUIDParsingError Guid :=
  if strLen s < 32 then .error .tooShort
  else if strLen s > 36 then .error .tooLong
  else (readBytesAux 16 s).map Guid.mk

/-- The uppercase hex digit for a nibble, as produced by the Rust
format specifier `{:X}` on values 0..15. -/
def hexDigit (n : Nat) : Char :=
  if n < 10 then Char.ofNat (48 + n) else Char.ofNat (55 + n)

/-- The two hex characters of one byte, high nibble first
(`byte >> 4`, `byte & 0b00001111`). -/
def byteHexChars (b : Nat) : List Char := [hexDigit (b / 16), hexDigit (b % 16)]

/-- The 32-character flat hex string `hex_chars` of `impl Debug for Guid`. -/
def guidHexChars (g : Guid) : Str := (g.inner.map byteHexChars).flatten

/-- Rust `impl Debug for Guid` (also `Display` and `Serialize`, which defer
to it): the canonical uppercase 8-4-4-4-12 hyphenated form.  The Rust
code slices `hex_chars` at byte indices 8, 12, 16, 20; all characters
involved are ASCII, so byte indices and character indices coincide. -/
def Guid.format (g : Guid) : Str :=
  (guidHexChars g).take 8 ++ '-' :: ((guidHexChars g).drop 8).take 4
    ++ '-' :: ((guidHexChars g).drop 12).take 4
    ++ '-' :: ((guidHexChars g).drop 16).take 4
    ++ '-' :: (guidHexChars g).drop 20

/-- Whether a character is not a hyphen. -/
def notHyphen (c : Char) : Bool := c ≠ '-'

/-- The characters of a string that are not hyphens; the digit scan of
`Guid.try_from` is a function of this list alone. -/
def filterH (s : Str) : Str := s.filter notHyphen

/-- A character the scanner accepts: a hex digit in either case. -/
def isHexChar (c : Char) : Bool := (hex_to_num c).isSome

/-- ASCII uppercasing, as relevant to hex digits: lowercase ASCII
letters are shifted to uppercase, everything else is untouched. -/
def asciiUpper (c : Char) : Char :=
  if 97 ≤ c.toNat ∧ c.toNat ≤ 122 then Char.ofNat (c.toNat - 32) else c

example : Guid.try_from ("C7AD875E-1344-4D9B-A883-32E748890908".data)
    = .ok ⟨[0xC7, 0xAD, 0x87, 0x5E, 0x13, 0x44, 0x4D, 0x9B,
            0xA8, 0x83, 0x32, 0xE7, 0x48, 0x89, 0x09, 0x08]⟩ := rfl

example : Guid.try_from ("C7AD875E13444D9BA88332E748890908".data)
    = .ok ⟨[0xC7, 0xAD, 0x87, 0x5E, 0x13, 0x44, 0x4D, 0x9B,
            0xA8, 0x83, 0x32, 0xE7, 0x48, 0x89, 0x09, 0x08]⟩ := rfl

example : Guid.try_from ("C7AD875E-1344-4D9B-A883".data) = .error .tooShort := rfl

example : Guid.try_from ("+7AD875E-1344-4D9B-A883-32E748890908".data)
    = .error .invalidCharacter := rfl

example : Guid.format ⟨[0xC7, 0xAD, 0x87, 0x5E, 0x13, 0x44, 0x4D, 0x9B,
            0xA8, 0x83, 0x32, 0xE7, 0x48, 0x89, 0x09, 0x08]⟩
    = "C7AD875E-1344-4D9B-A883-32E748890908".data := rfl

example : Guid.try_from ((List.replicate 32 '0') ++ ['+'])
    = .ok ⟨List.replicate 16 0⟩ := rfl

/-! ### Scan lemmas: the digit scan is a function of the non-hyphen characters -/

theorem filterH_nil : filterH [] = [] := rfl

theorem filterH_cons (c : Char) (s : Str) :
    filterH (c :: s) = if c = '-' then filterH s else c :: filterH s := by
  by_cases h : c = '-' <;> simp [filterH, notHyphen, List.filter, h]

theorem nextHex_of_filterH_nil (cs : Str) (h : filterH cs = []) :
    nextHex cs = .error .tooShort := by
  induction cs with
  | nil => rfl
  | cons c rest ih =>
      rw [filterH_cons] at h
      by_cases hc : c = '-'
      · simp only [if_pos hc] at h
        subst hc
        simpa [nextHex] using ih h
      · simp [hc] at h

theorem nextHex_of_filterH_cons (cs : Str) (c : Char) (rest : Str)
    (h : filterH cs = c :: rest) :
    (hex_to_num c = none → nextHex cs = .error .invalidCharacter) ∧
    (∀ n, hex_to_num c = some n →
      ∃ cs2, nextHex cs = .ok (n, cs2) ∧ filterH cs2 = rest) := by
  induction cs with
  | nil => simp [filterH] at h
  | cons d tail ih =>
      rw [filterH_cons] at h
      by_cases hd : d = '-'
      · simp only [if_pos hd] at h
        subst hd
        have := ih h
        constructor
        · intro hn
          simpa [nextHex] using this.1 hn
        · intro n hn
          obtain ⟨cs2, h1, h2⟩ := this.2 n hn
          exact ⟨cs2, by simpa [nextHex] using h1, h2⟩
      · simp only [if_neg hd] at h
        obtain ⟨rfl, rfl⟩ : d = c ∧ filterH tail = rest :=
          ⟨by injection h, by injection h⟩
        constructor
        · intro hn
          simp [nextHex, hd, hn]
        · intro n hn
          exact ⟨tail, by simp [nextHex, hd, hn], rfl⟩

theorem readBytesAux_congr (n : Nat) :
    ∀ cs cs2 : Str, filterH cs = filterH cs2 → readBytesAux n cs = readBytesAux n cs2 := by
  induction n with
  | zero => intro cs cs2 _; rfl
  | succ n ih =>
      intro cs cs2 hf
      match hfc : filterH cs with
      | [] =>
          have e1 := nextHex_of_filterH_nil cs hfc
          have e2 := nextHex_of_filterH_nil cs2 (hf ▸ hfc)
          simp [readBytesAux, e1, e2]
      | c :: rest =>
          have h2 : filterH cs2 = c :: rest := hf ▸ hfc
          match hc : hex_to_num c with
          | none =>
              have e1 := (nextHex_of_filterH_cons cs c rest hfc).1 hc
              have e2 := (nextHex_of_filterH_cons cs2 c rest h2).1 hc
              simp [readBytesAux, e1, e2]
          | some m =>
              obtain ⟨t1, e1, f1⟩ := (nextHex_of_filterH_cons cs c rest hfc).2 m hc
              obtain ⟨t2, e2, f2⟩ := (nextHex_of_filterH_cons cs2 c rest h2).2 m hc
              match hrest : rest with
              | [] =>
                  have g1 := nextHex_of_filterH_nil t1 f1
                  have g2 := nextHex_of_filterH_nil t2 f2
                  simp [readBytesAux, e1, e2, g1, g2]
              | c2 :: rest2 =>
                  match hc2 : hex_to_num c2 with
                  | none =>
                      have g1 := (nextHex_of_filterH_cons t1 c2 rest2 f1).1 hc2
                      have g2 := (nextHex_of_filterH_cons t2 c2 rest2 f2).1 hc2
                      simp [readBytesAux, e1, e2, g1, g2]
                  | some m2 =>
                      obtain ⟨u1, g1, k1⟩ := (nextHex_of_filterH_cons t1 c2 rest2 f1).2 m2 hc2
                      obtain ⟨u2, g2, k2⟩ := (nextHex_of_filterH_cons t2 c2 rest2 f2).2 m2 hc2
                      have := ih u1 u2 (k1.trans k2.symm)
                      simp [readBytesAux, e1, e2, g1, g2, this]

/-! ### The scan on rendered hex digits -/

/-- The flat hex rendering of a byte list (the `hex_chars` fold of the
`Debug` impl, before hyphens are inserted). -/
def renderBytes (bs : List Nat) : Str := (bs.map byteHexChars).flatten

theorem hex_to_num_hexDigit (n : Nat) (h : n < 16) :
    hex_to_num (hexDigit n) = some n := by
  interval_cases n <;> rfl

theorem hexDigit_ne_hyphen (n : Nat) (h : n < 16) : hexDigit n ≠ '-' := by
  interval_cases n <;> decide

theorem hexDigit_utf8Size (n : Nat) (h : n < 16) : (hexDigit n).utf8Size = 1 := by
  interval_cases n <;> rfl

theorem readBytesAux_render :
    ∀ (bs : List Nat) (cs extra : Str), (∀ b ∈ bs, b < 256) →
      filterH cs = renderBytes bs ++ extra →
      readBytesAux bs.length cs = .ok bs := by
  intro bs
  induction bs with
  | nil => intro cs extra _ _; rfl
  | cons b bs ih =>
      intro cs extra hb hf
      have hb0 : b < 256 := hb b (by simp)
      have hhi : b / 16 < 16 := Nat.div_lt_of_lt_mul (by omega)
      have hlo : b % 16 < 16 := Nat.mod_lt _ (by omega)
      have hf1 : filterH cs
          = hexDigit (b / 16) :: (hexDigit (b % 16) :: (renderBytes bs ++ extra)) := by
        simpa [renderBytes, byteHexChars] using hf
      obtain ⟨t1, e1, f1⟩ := (nextHex_of_filterH_cons cs _ _ hf1).2 (b / 16)
        (hex_to_num_hexDigit _ hhi)
      obtain ⟨t2, e2, f2⟩ := (nextHex_of_filterH_cons t1 _ _ f1).2 (b % 16)
        (hex_to_num_hexDigit _ hlo)
      have hrec := ih t2 extra (fun x hx => hb x (by simp [hx])) f2
      have hbyte : b / 16 * 16 + b % 16 = b := by omega
      simp [List.length_cons, readBytesAux, e1, e2, hrec, hbyte]

/-! ### Facts about the canonical format -/

theorem mem_guidHexChars (g : Guid) (hb : ∀ b ∈ g.inner, b < 256) :
    ∀ c ∈ guidHexChars g, ∃ n, n < 16 ∧ c = hexDigit n := by
  intro c hc
  simp only [guidHexChars, List.mem_flatten, List.mem_map] at hc
  obtain ⟨l, ⟨b, hbmem, rfl⟩, hcl⟩ := hc
  have hblt := hb b hbmem
  simp only [byteHexChars, List.mem_cons, List.mem_singleton] at hcl
  rcases hcl with rfl | rfl | h
  · exact ⟨b / 16, Nat.div_lt_of_lt_mul (by omega), rfl⟩
  · exact ⟨b % 16, Nat.mod_lt _ (by omega), rfl⟩
  · cases h

theorem guidHexChars_length (g : Guid) (hl : g.inner.length = 16) :
    (guidHexChars g).length = 32 := by
  have : ∀ bs : List Nat, ((bs.map byteHexChars).flatten).length = 2 * bs.length := by
    intro bs
    induction bs with
    | nil => rfl
    | cons b bs ih => simp [byteHexChars, ih]; omega
  simp [guidHexChars, this, hl]

theorem take_drop_regroup (h : Str) :
    h.take 8 ++ (h.drop 8).take 4 ++ (h.drop 12).take 4
      ++ (h.drop 16).take 4 ++ h.drop 20 = h := by
  have d12 : (h.drop 8).drop 4 = h.drop 12 := by
    rw [List.drop_drop]
  have d16 : (h.drop 12).drop 4 = h.drop 16 := by
    rw [List.drop_drop]
  have d20 : (h.drop 16).drop 4 = h.drop 20 := by
    rw [List.drop_drop]
  conv_rhs => rw [← List.take_append_drop 8 h,
    ← List.take_append_drop 4 (h.drop 8), d12,
    ← List.take_append_drop 4 (h.drop 12), d16,
    ← List.take_append_drop 4 (h.drop 16), d20]
  simp [List.append_assoc]

theorem filterH_format (g : Guid) (hb : ∀ b ∈ g.inner, b < 256) :
    filterH (Guid.format g) = guidHexChars g := by
  have hmem := mem_guidHexChars g hb
  have hno : ∀ c ∈ guidHexChars g, notHyphen c = true := by
    intro c hc
    obtain ⟨n, hn, rfl⟩ := hmem c hc
    simpa [notHyphen] using hexDigit_ne_hyphen n hn
  have hpiece : ∀ l : Str, (∀ c ∈ l, c ∈ guidHexChars g) →
      List.filter notHyphen l = l := by
    intro l hl
    exact List.filter_eq_self.mpr (fun a ha => hno a (hl a ha))
  have hhy : notHyphen '-' = false := rfl
  simp only [Guid.format, filterH, List.filter_append, List.filter_cons, hhy,
    Bool.false_eq_true, if_false]
  rw [hpiece _ (fun c hc => List.take_subset 8 _ hc),
    hpiece _ (fun c hc => List.drop_subset 8 _ (List.take_subset 4 _ hc)),
    hpiece _ (fun c hc => List.drop_subset 12 _ (List.take_subset 4 _ hc)),
    hpiece _ (fun c hc => List.drop_subset 16 _ (List.take_subset 4 _ hc)),
    hpiece _ (fun c hc => List.drop_subset 20 _ hc)]
  exact take_drop_regroup _

theorem strLen_append (a b : Str) : strLen (a ++ b) = strLen a + strLen b := by
  simp [strLen]

theorem strLen_of_ascii (s : Str) (h : ∀ c ∈ s, c.utf8Size = 1) :
    strLen s = s.length := by
  induction s with
  | nil => rfl
  | cons c t ih =>
      simp only [strLen, List.map_cons, List.sum_cons, h c (by simp)]
      rw [show (t.map Char.utf8Size).sum = strLen t from rfl, ih (fun x hx => h x (by simp [hx]))]
      simp [List.length_cons]
      omega

theorem strLen_format (g : Guid) (hl : g.inner.length = 16)
    (hb : ∀ b ∈ g.inner, b < 256) : strLen (Guid.format g) = 36 := by
  have hmem := mem_guidHexChars g hb
  have hascii : ∀ c ∈ Guid.format g, c.utf8Size = 1 := by
    intro c hc
    simp only [Guid.format, List.mem_append, List.mem_cons] at hc
    have hin : c = '-' ∨ c ∈ guidHexChars g := by
      rcases hc with (((h | h | h) | h | h) | h | h) | h | h
      · exact .inr (List.take_subset _ _ h)
      · exact .inl h
      · exact .inr (List.drop_subset _ _ (List.take_subset _ _ h))
      · exact .inl h
      · exact .inr (List.drop_subset _ _ (List.take_subset _ _ h))
      · exact .inl h
      · exact .inr (List.drop_subset _ _ (List.take_subset _ _ h))
      · exact .inl h
      · exact .inr (List.drop_subset _ _ h)
    rcases hin with rfl | hgc
    · rfl
    · obtain ⟨n, hn, rfl⟩ := hmem c hgc
      exact hexDigit_utf8Size n hn
  rw [strLen_of_ascii _ hascii]
  have h32 := guidHexChars_length g hl
  simp [Guid.format, List.length_append, List.length_take, List.length_drop, h32]

/-! ### Case-insensitivity of the scan -/

/-- Uppercasing of the lowercase hex digits; all other characters are
left alone.  "Insensitive to case" in the spec refers to these six
characters. -/
def upHex (c : Char) : Char :=
  if c = 'a' then 'A' else if c = 'b' then 'B' else if c = 'c' then 'C'
  else if c = 'd' then 'D' else if c = 'e' then 'E' else if c = 'f' then 'F'
  else c

theorem hex_to_num_upHex (c : Char) : hex_to_num (upHex c) = hex_to_num c := by
  by_cases h1 : c = 'a'; · subst h1; rfl
  by_cases h2 : c = 'b'; · subst h2; rfl
  by_cases h3 : c = 'c'; · subst h3; rfl
  by_cases h4 : c = 'd'; · subst h4; rfl
  by_cases h5 : c = 'e'; · subst h5; rfl
  by_cases h6 : c = 'f'; · subst h6; rfl
  simp [upHex, h1, h2, h3, h4, h5, h6]

theorem upHex_hyphen_iff (c : Char) : (upHex c = '-') ↔ (c = '-') := by
  by_cases h1 : c = 'a'; · subst h1; simp [upHex]
  by_cases h2 : c = 'b'; · subst h2; simp [upHex]
  by_cases h3 : c = 'c'; · subst h3; simp [upHex]
  by_cases h4 : c = 'd'; · subst h4; simp [upHex]
  by_cases h5 : c = 'e'; · subst h5; simp [upHex]
  by_cases h6 : c = 'f'; · subst h6; simp [upHex]
  simp [upHex, h1, h2, h3, h4, h5, h6]

theorem utf8Size_upHex (c : Char) : (upHex c).utf8Size = c.utf8Size := by
  by_cases h1 : c = 'a'; · subst h1; rfl
  by_cases h2 : c = 'b'; · subst h2; rfl
  by_cases h3 : c = 'c'; · subst h3; rfl
  by_cases h4 : c = 'd'; · subst h4; rfl
  by_cases h5 : c = 'e'; · subst h5; rfl
  by_cases h6 : c = 'f'; · subst h6; rfl
  simp [upHex, h1, h2, h3, h4, h5, h6]

theorem strLen_map_upHex (s : Str) : strLen (s.map upHex) = strLen s := by
  induction s with
  | nil => rfl
  | cons c t ih =>
      simp only [List.map_cons, strLen, List.sum_cons, utf8Size_upHex] at *
      omega

theorem nextHex_map_upHex (s : Str) :
    nextHex (s.map upHex) = (nextHex s).map (fun p => (p.1, p.2.map upHex)) := by
  induction s with
  | nil => rfl
  | cons c t ih =>
      by_cases hc : c = '-'
      · subst hc
        simpa [nextHex, List.map_cons, show upHex '-' = '-' from rfl] using ih
      · have hne : upHex c ≠ '-' := fun h => hc ((upHex_hyphen_iff c).mp h)
        match h : hex_to_num c with
        | some n => simp [nextHex, List.map_cons, hne, hc, hex_to_num_upHex, h, Except.map]
        | none => simp [nextHex, List.map_cons, hne, hc, hex_to_num_upHex, h, Except.map]

theorem readBytesAux_map_upHex (n : Nat) :
    ∀ s : Str, readBytesAux n (s.map upHex) = readBytesAux n s := by
  induction n with
  | zero => intro s; rfl
  | succ n ih =>
      intro s
      rw [show readBytesAux (n+1) (s.map upHex)
          = match nextHex (s.map upHex) with
            | .error e => .error e
            | .ok (hi, cs1) =>
                match nextHex cs1 with
                | .error e => .error e
                | .ok (lo, cs2) =>
                    match readBytesAux n cs2 with
                    | .error e => .error e
                    | .ok rest => .ok ((hi * 16 + lo) :: rest) from rfl]
      rw [nextHex_map_upHex]
      match h1 : nextHex s with
      | .error e => simp [readBytesAux, h1, Except.map]
      | .ok (hi, cs1) =>
          simp only [Except.map]
          rw [nextHex_map_upHex]
          match h2 : nextHex cs1 with
          | .error e => simp [readBytesAux, h1, h2, Except.map]
          | .ok (lo, cs2) =>
              simp only [Except.map]
              rw [ih cs2]
              simp [readBytesAux, h1, h2]

/-! ### Exhaustion and invalid-character lemmas -/

theorem readBytesAux_exhaust :
    ∀ (n : Nat) (cs : Str), 0 < n → (∀ d ∈ filterH cs, isHexChar d = true) →
      (filterH cs).length < 2 * n → readBytesAux n cs = .error .tooShort := by
  intro n
  induction n with
  | zero => intro cs h; omega
  | succ n ih =>
      intro cs _ hhex hlen
      match hfc : filterH cs with
      | [] =>
          have e1 := nextHex_of_filterH_nil cs hfc
          simp [readBytesAux, e1]
      | [d] =>
          have hd : isHexChar d = true := hhex d (by simp [hfc])
          obtain ⟨m, hm⟩ : ∃ m, hex_to_num d = some m := by
            rcases h : hex_to_num d with _ | m
            · simp [isHexChar, h] at hd
            · exact ⟨m, rfl⟩
          obtain ⟨t1, e1, f1⟩ := (nextHex_of_filterH_cons cs d [] hfc).2 m hm
          have e2 := nextHex_of_filterH_nil t1 f1
          simp [readBytesAux, e1, e2]
      | d1 :: d2 :: tail =>
          have hd1 : isHexChar d1 = true := hhex d1 (by simp [hfc])
          have hd2 : isHexChar d2 = true := hhex d2 (by simp [hfc])
          obtain ⟨m1, hm1⟩ : ∃ m, hex_to_num d1 = some m := by
            rcases h : hex_to_num d1 with _ | m
            · simp [isHexChar, h] at hd1
            · exact ⟨m, rfl⟩
          obtain ⟨m2, hm2⟩ : ∃ m, hex_to_num d2 = some m := by
            rcases h : hex_to_num d2 with _ | m
            · simp [isHexChar, h] at hd2
            · exact ⟨m, rfl⟩
          obtain ⟨t1, e1, f1⟩ := (nextHex_of_filterH_cons cs d1 _ hfc).2 m1 hm1
          obtain ⟨t2, e2, f2⟩ := (nextHex_of_filterH_cons t1 d2 _ f1).2 m2 hm2
          have hlen2 : (filterH t2).length < 2 * n := by
            rw [f2]
            have : (filterH cs).length = tail.length + 2 := by simp [hfc]
            omega
          have hn : 0 < n := by
            have : (filterH cs).length = tail.length + 2 := by simp [hfc]
            omega
          have hrec := ih t2 hn (fun d hd => hhex d (by simp [hfc, f2.symm ▸ hd])) hlen2
          simp [readBytesAux, e1, e2, hrec]

theorem readBytesAux_invalid :
    ∀ (n : Nat) (cs ds : Str) (c : Char) (rest : Str), 0 < n →
      filterH cs = ds ++ c :: rest → (∀ d ∈ ds, isHexChar d = true) →
      ds.length < 2 * n → hex_to_num c = none →
      readBytesAux n cs = .error .invalidCharacter := by
  intro n
  induction n with
  | zero => intro cs ds c rest h; omega
  | succ n ih =>
      intro cs ds c rest _ hsplit hhex hlen hc
      match ds with
      | [] =>
          have e1 := (nextHex_of_filterH_cons cs c rest (by simpa using hsplit)).1 hc
          simp [readBytesAux, e1]
      | [d] =>
          have hd : isHexChar d = true := hhex d (by simp)
          obtain ⟨m, hm⟩ : ∃ m, hex_to_num d = some m := by
            rcases h : hex_to_num d with _ | m
            · simp [isHexChar, h] at hd
            · exact ⟨m, rfl⟩
          obtain ⟨t1, e1, f1⟩ := (nextHex_of_filterH_cons cs d _ (by simpa using hsplit)).2 m hm
          have e2 := (nextHex_of_filterH_cons t1 c rest f1).1 hc
          simp [readBytesAux, e1, e2]
      | d1 :: d2 :: ds2 =>
          have hd1 : isHexChar d1 = true := hhex d1 (by simp)
          have hd2 : isHexChar d2 = true := hhex d2 (by simp)
          obtain ⟨m1, hm1⟩ : ∃ m, hex_to_num d1 = some m := by
            rcases h : hex_to_num d1 with _ | m
            · simp [isHexChar, h] at hd1
            · exact ⟨m, rfl⟩
          obtain ⟨m2, hm2⟩ : ∃ m, hex_to_num d2 = some m := by
            rcases h : hex_to_num d2 with _ | m
            · simp [isHexChar, h] at hd2
            · exact ⟨m, rfl⟩
          obtain ⟨t1, e1, f1⟩ := (nextHex_of_filterH_cons cs d1 _ (by simpa using hsplit)).2 m1 hm1
          obtain ⟨t2, e2, f2⟩ := (nextHex_of_filterH_cons t1 d2 _ f1).2 m2 hm2
          have hn : 0 < n := by
            simp only [List.length_cons] at hlen; omega
          have hrec := ih t2 ds2 c rest hn f2 (fun d hd => hhex d (by simp [hd]))
            (by simp only [List.length_cons] at hlen; omega) hc
          simp [readBytesAux, e1, e2, hrec]


/-! ### Claim theorems about the identifier codec -/

theorem strLen_ge_length (s : Str) : s.length ≤ strLen s := by
  have h1 : ∀ i ∈ s.map Char.utf8Size, 1 ≤ i := by
    intro i hi
    simp only [List.mem_map] at hi
    obtain ⟨c, _, rfl⟩ := hi
    exact Char.utf8Size_pos c
  have := List.length_le_sum_of_one_le _ h1
  simpa [strLen] using this

/-- C3 counterexample: the claim says any non-hex, non-hyphen character
anywhere in a length-32..36 input forces `InvalidCharacter`, but the
scan stops after the 32nd consumed hex digit, so a trailing `'+'` in a
33-byte input is never examined and parsing succeeds. -/
theorem c3_counterexample :
    strLen (List.replicate 32 '0' ++ ['+']) = 33 ∧
    '+' ∈ (List.replicate 32 '0' ++ ['+']) ∧
    hex_to_num '+' = none ∧ '+' ≠ '-' ∧
    Guid.try_from (List.replicate 32 '0' ++ ['+']) = .ok ⟨List.replicate 16 0⟩ :=
  ⟨by decide, by decide, rfl, by decide, rfl⟩

/-- C3 (amended): for inputs passing the length checks, `Guid.try_from`
fails with `InvalidCharacter` whenever a non-hex, non-hyphen character
occurs before 32 hex digits have been consumed; characters after the
32nd consumed hex digit are never examined. -/
theorem c3_invalid_character_scanned (s ds : Str) (c : Char) (rest : Str)
    (h32 : 32 ≤ strLen s) (h36 : strLen s ≤ 36)
    (hsplit : filterH s = ds ++ c :: rest)
    (hds : ∀ d ∈ ds, isHexChar d = true)
    (hlen : ds.length < 32)
    (hc : hex_to_num c = none) :
    Guid.try_from s = .error .invalidCharacter := by
  have hread := readBytesAux_invalid 16 s ds c rest (by omega) hsplit hds (by omega) hc
  simp only [Guid.try_from]
  rw [if_neg (by omega), if_neg (by omega), hread]
  rfl

theorem c3_invalid_character_scanned_witness :
    Guid.try_from ('+' :: List.replicate 32 '0') = .error .invalidCharacter :=
  c3_invalid_character_scanned _ [] '+' (List.replicate 32 '0')
    (by decide) (by decide) rfl (by simp) (by decide) rfl

/-- C4: identifier round-trip.  (1) For every 16-byte value,
`parse (format v) = ok v`, hence `format (parse (format v)) = format v`;
(2) parsing is insensitive to hyphen placement among inputs within the
allowed byte-length range; (3) parsing is insensitive to the case of the
hex digits. -/
theorem c4_identifier_roundtrip :
    (∀ bs : List Nat, bs.length = 16 → (∀ b ∈ bs, b < 256) →
      Guid.try_from (Guid.format ⟨bs⟩) = .ok ⟨bs⟩ ∧
      (Guid.try_from (Guid.format ⟨bs⟩)).map Guid.format = .ok (Guid.format ⟨bs⟩)) ∧
    (∀ s t : Str, 32 ≤ strLen s → strLen s ≤ 36 → 32 ≤ strLen t → strLen t ≤ 36 →
      filterH s = filterH t → Guid.try_from s = Guid.try_from t) ∧
    (∀ s : Str, Guid.try_from (s.map upHex) = Guid.try_from s) := by
  refine ⟨?_, ?_, ?_⟩
  · intro bs hl hb
    have hf : filterH (Guid.format ⟨bs⟩) = renderBytes bs := by
      rw [filterH_format ⟨bs⟩ hb]; rfl
    have hs36 : strLen (Guid.format ⟨bs⟩) = 36 := strLen_format ⟨bs⟩ hl hb
    have hread : readBytesAux 16 (Guid.format ⟨bs⟩) = .ok bs := by
      have := readBytesAux_render bs (Guid.format ⟨bs⟩) [] hb
        (by rw [hf, List.append_nil])
      rwa [hl] at this
    have h1 : Guid.try_from (Guid.format ⟨bs⟩) = .ok ⟨bs⟩ := by
      simp only [Guid.try_from]
      rw [if_neg (by omega), if_neg (by omega), hread]
      rfl
    exact ⟨h1, by rw [h1]; rfl⟩
  · intro s t hs1 hs2 ht1 ht2 hft
    have hread := readBytesAux_congr 16 s t hft
    simp only [Guid.try_from]
    rw [if_neg (by omega), if_neg (by omega), if_neg (by omega), if_neg (by omega), hread]
  · intro s
    simp only [Guid.try_from, strLen_map_upHex, readBytesAux_map_upHex]

theorem c4_identifier_roundtrip_witness :
    Guid.try_from (Guid.format ⟨List.replicate 16 0⟩) = .ok ⟨List.replicate 16 0⟩ ∧
    Guid.try_from ("00000000-000000000000000000000000".data)
      = Guid.try_from ("0000000000000000000000-0000000000".data) ∧
    Guid.try_from ("c7ad875e13444d9ba88332e748890908".data.map upHex)
      = Guid.try_from ("c7ad875e13444d9ba88332e748890908".data) :=
  ⟨(c4_identifier_roundtrip.1 (List.replicate 16 0) (by decide) (by decide)).1,
   c4_identifier_roundtrip.2.1 _ _ (by decide) (by decide) (by decide) (by decide) (by decide),
   c4_identifier_roundtrip.2.2 _⟩

/-- C5 counterexample: the claim reads lengths in characters, but the
code checks UTF-8 byte length (`s.len()`): 31 two-byte characters are
fewer than 32 characters yet 62 bytes, so parsing fails `TooLong`, not
`TooShort`. -/
theorem c5_counterexample :
    (List.replicate 31 (Char.ofNat 233)).length = 31 ∧
    Guid.try_from (List.replicate 31 (Char.ofNat 233)) = .error .tooLong ∧
    GUIDParsingError.tooLong ≠ GUIDParsingError.tooShort :=
  ⟨by decide, rfl, by decide⟩

/-- C5 (amended): with lengths measured in UTF-8 bytes as the code does:
under 32 bytes fails `TooShort`; within 32..36 bytes, if every non-hyphen
character is a hex digit but fewer than 32 of them exist, the scan
exhausts and fails `TooShort`; over 36 bytes fails `TooLong`; 37 or more
characters always fail `TooLong`; 31 hex characters with no hyphens fail
`TooShort`. -/
theorem c5_length_errors :
    (∀ s : Str, strLen s < 32 → Guid.try_from s = .error .tooShort) ∧
    (∀ s : Str, 32 ≤ strLen s → strLen s ≤ 36 →
      (∀ d ∈ filterH s, isHexChar d = true) → (filterH s).length < 32 →
      Guid.try_from s = .error .tooShort) ∧
    (∀ s : Str, 36 < strLen s → Guid.try_from s = .error .tooLong) ∧
    (∀ s : Str, 37 ≤ s.length → Guid.try_from s = .error .tooLong) ∧
    Guid.try_from (List.replicate 31 'A') = .error .tooShort := by
  have h3 : ∀ s : Str, 36 < strLen s → Guid.try_from s = .error .tooLong := by
    intro s h
    simp only [Guid.try_from]
    rw [if_neg (by omega), if_pos (by omega)]
  refine ⟨?_, ?_, h3, ?_, rfl⟩
  · intro s h
    simp only [Guid.try_from]
    rw [if_pos h]
  · intro s h1 h2 hhex hlen
    have hread := readBytesAux_exhaust 16 s (by omega) hhex (by omega)
    simp only [Guid.try_from]
    rw [if_neg (by omega), if_neg (by omega), hread]
    rfl
  · intro s h
    exact h3 s (by have := strLen_ge_length s; omega)

theorem c5_length_errors_witness :
    Guid.try_from (List.replicate 10 '0') = .error .tooShort ∧
    Guid.try_from (List.replicate 33 '-') = .error .tooShort ∧
    Guid.try_from (List.replicate 40 '0') = .error .tooLong ∧
    Guid.try_from (List.replicate 37 '0') = .error .tooLong :=
  ⟨c5_length_errors.1 _ (by decide),
   c5_length_errors.2.1 _ (by decide) (by decide) (by decide) (by decide),
   c5_length_errors.2.2.1 _ (by decide),
   c5_length_errors.2.2.2.1 _ (by decide)⟩

/-! ## mod.rs : the serde visitors

The input to every decoder is the parsed form of upstream JSON, modelled
by `Json`.  serde_json drives each visitor with the object fields in
document order; the `while let Ok(Some(key)) = map.next_key()` loops are
folds over the field list (JSON keys are always strings, so `next_key`
itself never fails). -/

/-- A parsed JSON value (serde_json `Value`).  Numbers keep their source
text; none of the decoders modelled here reads a JSON number. -/
inductive Json where
  | null
  | bool (b : Bool)
  | num (text : Str)
  | str (s : Str)
  | arr (elems : List Json)
  | obj (fields : List (String × Json))

/-! ### The f32 model

Rust `f32` values are modelled as `nan`, the two infinities, or an exact
decimal `fin m e` denoting `m * 10 ^ e`.  `f32::from_str`'s grammar
(optional sign; decimal mantissa with optional fraction and exponent;
`inf`/`infinity`/`nan` keywords, case-insensitive) is modelled exactly,
but the rounding of the decimal to binary32 is not: the parsed value is
kept exact.  The claims checked here only exercise comparisons with 255
and truncation at exactly-representable values, where rounding is the
identity. -/
inductive F32 where
  | nan
  | inf
  | neginf
  | fin (m : ℤ) (e : ℤ)
deriving DecidableEq

/-- Rust `float > 255.0` (`u8::MAX as f32` is exactly 255.0): false for
NaN, true for `+inf`; for a finite `m * 10 ^ e` the comparison is done
on integers. -/
def F32.gt255 : F32 → Bool
  | .nan => false
  | .inf => true
  | .neginf => false
  | .fin m e =>
      if 0 ≤ e then 255 < m * (10 : ℤ) ^ e.toNat
      else 255 * (10 : ℤ) ^ (-e).toNat < m

/-- Rust `float <= 255.0`: false for NaN and `+inf`. -/
def F32.le255 : F32 → Bool
  | .nan => false
  | .inf => false
  | .neginf => true
  | .fin m e =>
      if 0 ≤ e then m * (10 : ℤ) ^ e.toNat ≤ 255
      else m ≤ 255 * (10 : ℤ) ^ (-e).toNat

/-- Integer division of `m` by a positive `d`, truncating toward zero. -/
def tdivTrunc (m : ℤ) (d : Nat) : ℤ :=
  if 0 ≤ m then ((m.toNat / d : ℕ) : ℤ) else -(((-m).toNat / d : ℕ) : ℤ)

/-- Rust `float.trunc() as u8`: an `as` cast from float to integer
saturates — NaN goes to 0, negative values go to 0, values above 255 go
to 255, everything else truncates toward zero. -/
def F32.truncSatU8 : F32 → Nat
  | .nan => 0
  | .inf => 255
  | .neginf => 0
  | .fin m e =>
      let t : ℤ :=
        if 0 ≤ e then m * (10 : ℤ) ^ e.toNat
        else tdivTrunc m ((10 : ℕ) ^ (-e).toNat)
      if t < 0 then 0 else if 255 < t then 255 else t.toNat

/-- ASCII digit test. -/
def isDigit (c : Char) : Bool := 48 ≤ c.toNat ∧ c.toNat ≤ 57

/-- Value of an ASCII digit string, most significant first. -/
def digitsToNat (s : Str) : Nat := s.foldl (fun acc c => acc * 10 + (c.toNat - 48)) 0

/-- ASCII lowercasing, for the case-insensitive float keywords. -/
def toLowerAscii (c : Char) : Char :=
  if 65 ≤ c.toNat ∧ c.toNat ≤ 90 then Char.ofNat (c.toNat + 32) else c

/-- The value of a parsed mantissa `ip.fp` and exponent: the integer
`ip ++ fp` scaled by `10 ^ (ex - |fp|)`, with the sign applied. -/
def buildF32 (neg : Bool) (ip fp : Str) (ex : ℤ) : F32 :=
  .fin ((if neg then -1 else 1) * ((digitsToNat ip * 10 ^ fp.length + digitsToNat fp : ℕ) : ℤ))
    (ex - fp.length)

/-- The exponent suffix of the float grammar: empty, or `e`/`E`, an
optional sign, and at least one digit. -/
def parseExpAndBuild (neg : Bool) (ip fp : Str) (rest : Str) : Option F32 :=
  match rest with
  | [] => some (buildF32 neg ip fp 0)
  | e :: rest2 =>
      if e = 'e' ∨ e = 'E' then
        match rest2 with
        | '+' :: r =>
            if r ≠ [] ∧ r.all isDigit then some (buildF32 neg ip fp (digitsToNat r)) else none
        | '-' :: r =>
            if r ≠ [] ∧ r.all isDigit then
              some (buildF32 neg ip fp (-(digitsToNat r : ℤ))) else none
        | r =>
            if r ≠ [] ∧ r.all isDigit then some (buildF32 neg ip fp (digitsToNat r)) else none
      else none

/-- The mantissa of the float grammar: `Digits`, `Digits . Digits?` or
`. Digits`, followed by the optional exponent. -/
def parseMantissa (neg : Bool) (cs : Str) : Option F32 :=
  match cs.dropWhile isDigit with
  | '.' :: rest2 =>
      if cs.takeWhile isDigit = [] ∧ rest2.takeWhile isDigit = [] then none
      else parseExpAndBuild neg (cs.takeWhile isDigit) (rest2.takeWhile isDigit)
        (rest2.dropWhile isDigit)
  | rest1 =>
      if cs.takeWhile isDigit = [] then none
      else parseExpAndBuild neg (cs.takeWhile isDigit) [] rest1

/-- The body of the float grammar after the optional sign. -/
def parseF32Body (neg : Bool) (rest : Str) : Option F32 :=
  if rest.map toLowerAscii = "inf".data ∨ rest.map toLowerAscii = "infinity".data then
    some (if neg then .neginf else .inf)
  else if rest.map toLowerAscii = "nan".data then some .nan
  else parseMantissa neg rest

/-- Model of Rust `f32::from_str` (see the `F32` comment for the
rounding caveat).  Overflow to infinity on huge finite literals is not
modelled; no claim depends on it. -/
def parseF32 (s : Str) : Option F32 :=
  match s with
  | '+' :: rest => parseF32Body false rest
  | '-' :: rest => parseF32Body true rest
  | rest => parseF32Body false rest

/-! ### Decode errors

Custom error messages (`de::Error::custom(format!(...))`) are modelled
by `ErrMsg` constructors carrying the interpolated data; each
constructor's comment gives the exact Rust format string. -/
inductive ErrMsg where
  /-- Models `de::Error::custom(e)` on a `GUIDParsingError` (its `Display`
  text: "String provided is too short" / "... too long" / "String
  contains invalid characters"). -/
  | guidParsing (e : GUIDParsingError)
  /-- Message `"error parsing guid: {}"` (CourseEntries visit_map, `guid` key). -/
  | errorParsingGuid (e : GUIDParsingError)
  /-- The credits-range parse error naming the offending text
  (`parse_course_credits`, modelled from the spec). -/
  | creditsParse (s : Str)
  /-- Message `r#"Expected "True" or "False". Got: {}"#`. -/
  | expectedTrueFalse (got : Str)
  /-- Message ``"`name` field for `Label` should not be null"``. -/
  | nameNullForLabel
  /-- Message ``"`number` field for `Course` should not be null"``. -/
  | numberNullForCourse
  /-- Message ``"`subject_code` field for `Course` should not be null"``. -/
  | subjectCodeNullForCourse
  /-- Models `de::Error::custom(e)` on a `ParseFloatError`
  ("invalid float literal"), CourseDetails credits blocks. -/
  | invalidFloatLiteral
  /-- Message `"failed to parse f32, {e}"` (`deserialize_and_floor_u8_from_float_str`). -/
  | failedToParseF32
  /-- Message `"value of credits_max exceeded `u8::MAX` (255)"` — the message
  produced by the `credits_min` block (it names credits_max). -/
  | creditsMinExceeded
  /-- Message `"value of credits_max exceeded 255"` (the `credits_max` block). -/
  | creditsMaxExceeded
  /-- Message `"expected a value less than '255.0', instead got: {float}"`
  (`deserialize_and_floor_u8_from_float_str`). -/
  | expectedLt255 (f : F32)
  /-- serde's untagged-enum failure for `RawRequirement`
  ("data did not match any variant of untagged enum RawRequirement"). -/
  | untaggedRawRequirement
  /-- Message `"expected JSON object"` (`extract_guid_from_requisite`). -/
  | expectedJsonObject
  /-- Message `"missing field GUID"` (`extract_guid_from_requisite`). -/
  | missingGUIDInRequisite
  /-- Message `"expected JSON string for field GUID"` (`extract_guid_from_requisite`). -/
  | expectedJsonStringGUID
deriving DecidableEq

/-- Errors a decode can produce.  `missingField` / `duplicateField`
model `de::Error::missing_field` / `de::Error::duplicate_field`;
`invalidType` models serde's invalid-type errors (its payload names the
expectation; the found-value part of serde's message is not modelled);
`custom` models `de::Error::custom`; `panic` models a Rust panic — an
unwind, not a returned error value. -/
inductive DeError where
  | missingField (k : String)
  | duplicateField (k : String)
  | invalidType (expected : String)
  | custom (m : ErrMsg)
  | panic
deriving DecidableEq

/-- Model of the unchecked byte slicing `&s[1..s.len() - 1]` applied by
every brace-stripping decode path.  The result is `none` exactly when
Rust panics: when the byte length is below 2 (empty string: index
underflow/out of range; one-byte string: range `1..0`), or when byte 1
or byte `len - 1` is not a character boundary (first or last character
multi-byte).  Otherwise the slice is the string minus its first and
last characters, which are never compared against braces. -/
def sliceOffFirstAndLastByte (s : Str) : Option Str :=
  if strLen s < 2 then none
  else
    match s with
    | [] => none
    | c :: rest =>
        if c.utf8Size ≠ 1 then none
        else
          match rest.getLast? with
          | none => none
          | some d => if d.utf8Size ≠ 1 then none else some rest.dropLast

/-- Rust `deserialize_guid_with_curly_braces` from guid.rs: deserialize a
string, strip the first and last byte unchecked, then `Guid::try_from`
with `de::Error::custom` on failure. -/
def deserialize_guid_with_curly_braces (v : Json) : Except DeError Guid :=
  match v with
  | .str s =>
      match sliceOffFirstAndLastByte s with
      | none => .error .panic
      | some mid =>
          match Guid.try_from mid with
          | .ok g => .ok g
          | .error e => .error (.custom (.guidParsing e))
  | _ => .error (.invalidType "a string")

/-! ### The typed data model (§3) -/

/-- Rust `Course` (crate root): the fields as constructed by
`CourseEntriesVisitor::visit_map`.  `credits` is the (min, optional
max) pair. -/
structure Course where
  url : Str
  path : Str
  guid : Guid
  name : Option Str
  number : Str
  subject_name : Option Str
  subject_code : Str
  credits : Nat × Option Nat
deriving DecidableEq

/-- Rust `Label` (crate root): the narrative-placeholder leaf, as constructed
by `CourseEntriesVisitor::visit_map` (note: no `path` field). -/
structure Label where
  url : Str
  guid : Guid
  name : Str
  subject_code : Option Str
  credits : Nat × Option Nat
  number : Option Str
deriving DecidableEq

/-- Rust `CourseEntry`: a node of the course-entry tree. -/
inductive CourseEntry where
  | and (entries : List CourseEntry)
  | or (entries : List CourseEntry)
  | label (l : Label)
  | course (c : Course)

/-- Rust `CourseEntries(Vec<CourseEntry>)`: the newtype wrapper is modelled
directly as the list. -/
abbrev CourseEntries := List CourseEntry

/-- Rust `Requirement`: exactly one variant per record (§4.3). -/
inductive Requirement where
  | courses (title : Option Str) (courses : CourseEntries)
  | selectFromCourses (title : Str) (courses : Option CourseEntries)
  | label (title : Option Str) (req_narrative : Option Str)

/-- Rust `RequirementModule`.  The decoders modelled here only produce the
first two variants; `Label` exists in the data model (§3) but no decode
path constructs it, and the unsupported upstream variants
(`SelectOneEmphasis`, `Unimplemented`) are omitted as they carry no
decode logic. -/
inductive RequirementModule where
  | singleBasicRequirement (title : Option Str) (requirement : Requirement)
  | basicRequirements (title : Option Str) (requirements : List Requirement)
  | label (title : Option Str)

/-- Rust `Requirements`: a single module or an ordered list of modules
(`SelectTrack` is unsupported upstream and has no decode logic). -/
inductive Requirements where
  | single (m : RequirementModule)
  | many (ms : List RequirementModule)

/-- Rust `CourseDetails` (crate root), as constructed by
`CourseDetailsVisitor::visit_map`. -/
structure CourseDetails where
  url : Str
  guid : Guid
  path : Str
  subject_code : Str
  subject_name : Option Str
  number : Str
  name : Str
  credits_min : Nat
  credits_max : Option Nat
  description : Str
  prerequisite_narrative : Option Str
  prerequisite : Option Guid
  corequisite_narrative : Option Str
  corequisite : Option Guid
deriving DecidableEq

/-! ### Scalar decoders -/

/-- Whether a string is a non-empty run of ASCII digits whose value
fits in `u8`. -/
def parsesAsU8 (s : Str) : Option Nat :=
  if s ≠ [] ∧ s.all isDigit ∧ digitsToNat s ≤ 255 then some (digitsToNat s) else none

/-- Modelled from the spec: `parse_course_credits` lives in
`parsing/courses.rs`, which is not part of the provided sources.  §4.2:
the input is `"<min>"` or `"<min>-<max>"` with both parts non-negative
integers representable in 8 bits; malformed text (non-numeric, overflow,
extra dashes) fails with a decode error naming the offending text. -/
def parse_course_credits (s : Str) : Except ErrMsg (Nat × Option Nat) :=
  match (s.splitOn '-').map parsesAsU8 with
  | [some n] => .ok (n, none)
  | [some a, some b] => .ok (a, some b)
  | _ => .error (.creditsParse s)

/-! ### serde primitives used by the visitors -/

/-- Models `map.next_value::<String>()` (and `::<&str>()`): the value must be a
JSON string. -/
def decodeString (v : Json) : Except DeError Str :=
  match v with
  | .str s => .ok s
  | _ => .error (.invalidType "a string")

/-- Models `map.next_value::<Option<String>>()`: `null` is `None`, a string is
`Some`, anything else is a type error. -/
def decodeOptionString (v : Json) : Except DeError (Option Str) :=
  match v with
  | .null => .ok none
  | .str s => .ok (some s)
  | _ => .error (.invalidType "a string or null")

/-- serde_json `Map::get`: upstream maps cannot hold duplicate keys
(later occurrences overwrite earlier ones at JSON parse time), so
lookup takes the last occurrence. -/
def jsonGet (fields : List (String × Json)) (k : String) : Option Json :=
  (fields.reverse.find? (fun p => p.1 = k)).map (fun p => p.2)

/-- The `while let Ok(Some(key)) = map.next_key()` loop of a visitor:
a fold of the per-key step over the fields in document order, stopping
at the first value-decode failure. -/
def mapLoop (step : σ → String × Json → Except DeError σ) :
    σ → List (String × Json) → Except DeError σ
  | st, [] => .ok st
  | st, f :: rest =>
      match step st f with
      | .error e => .error e
      | .ok st2 => mapLoop step st2 rest

theorem mapLoop_append (step : σ → String × Json → Except DeError σ)
    (st : σ) (xs ys : List (String × Json)) :
    mapLoop step st (xs ++ ys)
      = match mapLoop step st xs with
        | .error e => .error e
        | .ok st2 => mapLoop step st2 ys := by
  induction xs generalizing st with
  | nil => simp [mapLoop]
  | cons f rest ih =>
      simp only [List.cons_append, mapLoop]
      match step st f with
      | .error e => rfl
      | .ok st2 => exact ih st2

/-! ### Decoders for code outside the provided sources

The crate root (`lib.rs`, with the derived `Deserialize` for `Course`)
and `parsing/courses.rs` (`RawCourseEntry`, `CoursesParser`) are not
part of the provided sources, and §4.4/§9 leave the raw list encoding
deliberately unspecified.  The two decode paths that live there are
taken as parameters: every theorem below holds for every behaviour of
these parameters. -/
structure ExternalDecoders where
  /-- The derived `Deserialize` of `Course` (crate root, not in the
  provided sources), used by `SingleCourseRequirement`. -/
  courseFromJson : Json → Except DeError Course
  /-- The list-shaped course-entry path: `CourseEntriesVisitor::visit_seq`
  collecting `RawCourseEntry`s and running `CoursesParser` (both in
  `courses.rs`, not in the provided sources). -/
  courseEntriesSeq : List Json → Except DeError CourseEntries

/-- An arbitrary instantiation of the external decoders, used only to
produce closed witness instances of the quantified theorems. -/
def extTrivial : ExternalDecoders :=
  ⟨fun _ => .error (.invalidType "unused"), fun _ => .error (.invalidType "unused")⟩

/-! ### CourseEntries : the single-object path (`visit_map`) -/

/-- The local slots of `CourseEntriesVisitor::visit_map`. -/
structure CESlots where
  url : Option Str
  path : Option Str
  guid : Option Guid
  name : Option (Option Str)
  number : Option (Option Str)
  subject_name : Option (Option Str)
  subject_code : Option (Option Str)
  credits : Option (Nat × Option Nat)
  is_narrative : Option Bool

/-- All slots start unset. -/
def ceInit : CESlots := ⟨none, none, none, none, none, none, none, none, none⟩

/-- The literal `"True"`. -/
def trueStr : Str := "True".data

/-- The literal `"False"`. -/
def falseStr : Str := "False".data

/-- One key of the `CourseEntriesVisitor::visit_map` loop: duplicate
check, then the per-key value decode (`guid` slices off the enclosing
braces unchecked; `credits` runs `parse_course_credits`; `is_narrative`
accepts exactly `"True"` / `"False"`); unrecognized keys are read and
discarded. -/
def ceStep (st : CESlots) (f : String × Json) : Except DeError CESlots :=
  if f.1 = "url" then
    if st.url.isSome then .error (.duplicateField "url")
    else match decodeString f.2 with
      | .error e => .error e
      | .ok s => .ok { st with url := some s }
  else if f.1 = "path" then
    if st.path.isSome then .error (.duplicateField "path")
    else match decodeString f.2 with
      | .error e => .error e
      | .ok s => .ok { st with path := some s }
  else if f.1 = "guid" then
    if st.guid.isSome then .error (.duplicateField "guid")
    else match f.2 with
      | .str s =>
          match sliceOffFirstAndLastByte s with
          | none => .error .panic
          | some mid =>
              match Guid.try_from mid with
              | .ok g => .ok { st with guid := some g }
              | .error e => .error (.custom (.errorParsingGuid e))
      | _ => .error (.invalidType "a string")
  else if f.1 = "name" then
    if st.name.isSome then .error (.duplicateField "name")
    else match decodeOptionString f.2 with
      | .error e => .error e
      | .ok s => .ok { st with name := some s }
  else if f.1 = "number" then
    if st.number.isSome then .error (.duplicateField "number")
    else match decodeOptionString f.2 with
      | .error e => .error e
      | .ok s => .ok { st with number := some s }
  else if f.1 = "subject_name" then
    if st.subject_name.isSome then .error (.duplicateField "subject_name")
    else match decodeOptionString f.2 with
      | .error e => .error e
      | .ok s => .ok { st with subject_name := some s }
  else if f.1 = "subject_code" then
    if st.subject_code.isSome then .error (.duplicateField "subject_code")
    else match decodeOptionString f.2 with
      | .error e => .error e
      | .ok s => .ok { st with subject_code := some s }
  else if f.1 = "credits" then
    if st.credits.isSome then .error (.duplicateField "credits")
    else match f.2 with
      | .str s =>
          match parse_course_credits s with
          | .ok c => .ok { st with credits := some c }
          | .error m => .error (.custom m)
      | _ => .error (.invalidType "a string")
  else if f.1 = "is_narrative" then
    if st.is_narrative.isSome then .error (.duplicateField "is_narrative")
    else match f.2 with
      | .str s =>
          if s = trueStr then .ok { st with is_narrative := some true }
          else if s = falseStr then .ok { st with is_narrative := some false }
          else .error (.custom (.expectedTrueFalse s))
      | _ => .error (.invalidType "a string")
  else .ok st

/-- The checks and leaf construction after the
`CourseEntriesVisitor::visit_map` loop: the nine `ok_or` missing-field
checks in source order, then the `is_narrative` branch building a
single-element `CourseEntries`. -/
def ceFinish (st : CESlots) : Except DeError CourseEntries :=
  match st.url with
  | none => .error (.missingField "url")
  | some url =>
  match st.path with
  | none => .error (.missingField "path")
  | some path =>
  match st.guid with
  | none => .error (.missingField "guid")
  | some guid =>
  match st.name with
  | none => .error (.missingField "name")
  | some name =>
  match st.number with
  | none => .error (.missingField "number")
  | some number =>
  match st.subject_name with
  | none => .error (.missingField "subject_name")
  | some subject_name =>
  match st.subject_code with
  | none => .error (.missingField "subject_code")
  | some subject_code =>
  match st.credits with
  | none => .error (.missingField "credits")
  | some credits =>
  match st.is_narrative with
  | none => .error (.missingField "is_narrative")
  | some is_narrative =>
  if is_narrative then
    match name with
    | none => .error (.custom .nameNullForLabel)
    | some n => .ok [CourseEntry.label ⟨url, guid, n, subject_code, credits, number⟩]
  else
    match number with
    | none => .error (.custom .numberNullForCourse)
    | some num =>
        match subject_code with
        | none => .error (.custom .subjectCodeNullForCourse)
        | some sc =>
            .ok [CourseEntry.course
              ⟨url, path, guid, name, num, subject_name, sc, credits⟩]

/-- The map-shaped entry of `CourseEntries`' deserializer. -/
def decodeCourseEntriesMap (fields : List (String × Json)) : Except DeError CourseEntries :=
  match mapLoop ceStep ceInit fields with
  | .error e => .error e
  | .ok st => ceFinish st

/-- `impl Deserialize for CourseEntries` (`deserialize_any`): a JSON
array takes the list-shaped path (external, see `ExternalDecoders`), a
JSON object the single-object path; anything else is a type error. -/
def decodeCourseEntries (ext : ExternalDecoders) (v : Json) : Except DeError CourseEntries :=
  match v with
  | .arr xs => ext.courseEntriesSeq xs
  | .obj fields => decodeCourseEntriesMap fields
  | _ => .error (.invalidType "an array of JSON objects representing a SelectionEntry")

/-! ### Requirement -/

/-- Substring containment, as Rust `str::contains` with a literal
needle. -/
def containsSub : Str → Str → Bool
  | [], needle => needle.isEmpty
  | c :: t, needle => needle.isPrefixOf (c :: t) || containsSub t needle

/-- The literal `"Select"` of the disambiguation heuristic. -/
def selectNeedle : Str := "Select".data

/-- The local slots of `RequirementVisitor::visit_map`. -/
structure ReqSlots where
  title : Option (Option Str)
  req_narrative : Option (Option Str)
  courses : Option CourseEntries

/-- All slots start unset. -/
def reqInit : ReqSlots := ⟨none, none, none⟩

/-- One key of the `RequirementVisitor::visit_map` loop. -/
def reqStep (ext : ExternalDecoders) (st : ReqSlots) (f : String × Json) :
    Except DeError ReqSlots :=
  if f.1 = "title" then
    if st.title.isSome then .error (.duplicateField "title")
    else match decodeOptionString f.2 with
      | .error e => .error e
      | .ok s => .ok { st with title := some s }
  else if f.1 = "req_narrative" then
    if st.req_narrative.isSome then .error (.duplicateField "req_narrative")
    else match decodeOptionString f.2 with
      | .error e => .error e
      | .ok s => .ok { st with req_narrative := some s }
  else if f.1 = "course" then
    if st.courses.isSome then .error (.duplicateField "course")
    else match decodeCourseEntries ext f.2 with
      | .error e => .error e
      | .ok ce => .ok { st with courses := some ce }
  else .ok st

/-- The `match (title, courses)` of `RequirementVisitor::visit_map`
(lines 246-258): a `Some` title containing `"Select"` wins regardless of
`courses`; otherwise present courses win; otherwise a `Label`. -/
def requirementFromParts (title : Option Str) (req_narrative : Option Str)
    (courses : Option CourseEntries) : Requirement :=
  match title, courses with
  | some t, cs =>
      if containsSub t selectNeedle then .selectFromCourses t cs
      else
        match cs with
        | some ce => .courses (some t) ce
        | none => .label (some t) req_narrative
  | none, some ce => .courses none ce
  | none, none => .label none req_narrative

/-- The checks after the `RequirementVisitor::visit_map` loop: `title`
and `req_narrative` are required, then the variant match. -/
def reqFinish (st : ReqSlots) : Except DeError Requirement :=
  match st.title with
  | none => .error (.missingField "title")
  | some title =>
      match st.req_narrative with
      | none => .error (.missingField "req_narrative")
      | some rn => .ok (requirementFromParts title rn st.courses)

/-- The map-shaped body of `Requirement`'s deserializer. -/
def decodeRequirementMap (ext : ExternalDecoders) (fields : List (String × Json)) :
    Except DeError Requirement :=
  match mapLoop (reqStep ext) reqInit fields with
  | .error e => .error e
  | .ok st => reqFinish st

/-- `impl Deserialize for Requirement` (`deserialize_any`, `visit_map`
only). -/
def decodeRequirement (ext : ExternalDecoders) (v : Json) : Except DeError Requirement :=
  match v with
  | .obj fields => decodeRequirementMap ext fields
  | _ => .error (.invalidType "a JSON object representing a Requirement enum")

/-- serde's `Vec<Requirement>` deserializer: elements in order, the
first failure propagating (`seq.next_element()?`). -/
def decodeRequirementSeq (ext : ExternalDecoders) : List Json → Except DeError (List Requirement)
  | [] => .ok []
  | x :: rest =>
      match decodeRequirement ext x with
      | .error e => .error e
      | .ok r =>
          match decodeRequirementSeq ext rest with
          | .error e => .error e
          | .ok rs => .ok (r :: rs)

/-- `map.next_value::<Vec<Requirement>>()`: the value must be an array. -/
def decodeRequirementList (ext : ExternalDecoders) (v : Json) :
    Except DeError (List Requirement) :=
  match v with
  | .arr xs => decodeRequirementSeq ext xs
  | _ => .error (.invalidType "a sequence")

/-! ### RequirementModule -/

/-- The local slots of `RequirementModuleVisitor::visit_map`. -/
structure RMSlots where
  title : Option (Option Str)
  requirements : Option (List Requirement)

/-- All slots start unset. -/
def rmInit : RMSlots := ⟨none, none⟩

/-- One key of the `RequirementModuleVisitor::visit_map` loop. -/
def rmStep (ext : ExternalDecoders) (st : RMSlots) (f : String × Json) :
    Except DeError RMSlots :=
  if f.1 = "title" then
    if st.title.isSome then .error (.duplicateField "title")
    else match decodeOptionString f.2 with
      | .error e => .error e
      | .ok s => .ok { st with title := some s }
  else if f.1 = "requirement_list" then
    if st.requirements.isSome then .error (.duplicateField "requirement_list")
    else match decodeRequirementList ext f.2 with
      | .error e => .error e
      | .ok rs => .ok { st with requirements := some rs }
  else .ok st

/-- The checks after the `RequirementModuleVisitor::visit_map` loop.
Note the missing-field error for an absent `requirement_list` key names
`"requirements"` (source line 178). -/
def rmFinish (st : RMSlots) : Except DeError RequirementModule :=
  match st.title with
  | none => .error (.missingField "title")
  | some title =>
      match st.requirements with
      | none => .error (.missingField "requirements")
      | some rs => .ok (.basicRequirements title rs)

/-- `impl Deserialize for RequirementModule` (`deserialize_any`,
`visit_map` only). -/
def decodeRequirementModule (ext : ExternalDecoders) (v : Json) :
    Except DeError RequirementModule :=
  match v with
  | .obj fields =>
      match mapLoop (rmStep ext) rmInit fields with
      | .error e => .error e
      | .ok st => rmFinish st
  | _ => .error (.invalidType "a JSON object representing a program at Union University")

/-! ### Requirements -/

/-- The untagged intermediate `RawRequirement` of
`RequirementsVisitor::visit_map`. -/
inductive RawRequirement where
  | singleCourse (title : Option Str) (course : Course)
  | single (r : Requirement)
  | many (rs : List Requirement)

/-- The slots of the derived deserializer of `SingleCourseRequirement`
(`{ title: Option<String>, course: Course }`). -/
structure SCRSlots where
  title : Option (Option Str)
  course : Option Course

/-- Derived serde struct deserialization of `SingleCourseRequirement`:
duplicate fields error, unknown fields are ignored, a missing `Option`
field defaults to `None`, a missing `course` is an error. -/
def decodeSingleCourseRequirement (ext : ExternalDecoders) (v : Json) :
    Except DeError (Option Str × Course) :=
  match v with
  | .obj fields =>
      match mapLoop (fun (st : SCRSlots) f =>
          if f.1 = "title" then
            if st.title.isSome then .error (.duplicateField "title")
            else match decodeOptionString f.2 with
              | .error e => .error e
              | .ok s => .ok { st with title := some s }
          else if f.1 = "course" then
            if st.course.isSome then .error (.duplicateField "course")
            else match ext.courseFromJson f.2 with
              | .error e => .error e
              | .ok c => .ok { st with course := some c }
          else .ok st) ⟨none, none⟩ fields with
      | .error e => .error e
      | .ok st =>
          match st.course with
          | none => .error (.missingField "course")
          | some c => .ok (st.title.getD none, c)
  | _ => .error (.invalidType "struct SingleCourseRequirement")

/-- serde's untagged deserialization of `RawRequirement`: the variants
are tried on the buffered content in declaration order
(`SingleCourseRequirement`, then `Single(Requirement)`, then
`Many(Vec<Requirement>)`); if all fail, the untagged error. -/
def decodeRawRequirement (ext : ExternalDecoders) (v : Json) :
    Except DeError RawRequirement :=
  match decodeSingleCourseRequirement ext v with
  | .ok (t, c) => .ok (.singleCourse t c)
  | .error _ =>
      match decodeRequirement ext v with
      | .ok r => .ok (.single r)
      | .error _ =>
          match decodeRequirementList ext v with
          | .ok rs => .ok (.many rs)
          | .error _ => .error (.custom .untaggedRawRequirement)

/-- The local slots of `RequirementsVisitor::visit_map`. -/
structure RQSlots where
  title : Option (Option Str)
  req_narrative : Option (Option Str)
  requirement_list : Option RawRequirement

/-- All slots start unset. -/
def rqInit : RQSlots := ⟨none, none, none⟩

/-- One key of the `RequirementsVisitor::visit_map` loop. -/
def rqStep (ext : ExternalDecoders) (st : RQSlots) (f : String × Json) :
    Except DeError RQSlots :=
  if f.1 = "title" then
    if st.title.isSome then .error (.duplicateField "title")
    else match decodeOptionString f.2 with
      | .error e => .error e
      | .ok s => .ok { st with title := some s }
  else if f.1 = "req_narrative" then
    if st.req_narrative.isSome then .error (.duplicateField "req_narrative")
    else match decodeOptionString f.2 with
      | .error e => .error e
      | .ok s => .ok { st with req_narrative := some s }
  else if f.1 = "requirement_list" then
    if st.requirement_list.isSome then .error (.duplicateField "requirement_list")
    else match decodeRawRequirement ext f.2 with
      | .error e => .error e
      | .ok r => .ok { st with requirement_list := some r }
  else .ok st

/-- The checks after the `RequirementsVisitor::visit_map` loop: `title`
required, then `requirement_list` — whose missing-field error names
`"requirements_list"` (source line 91); `req_narrative` is read but
never checked or used.  The raw value is matched into a module and
wrapped as `Requirements::Single`. -/
def rqFinish (st : RQSlots) : Except DeError Requirements :=
  match st.title with
  | none => .error (.missingField "title")
  | some title =>
      match st.requirement_list with
      | none => .error (.missingField "requirements_list")
      | some raw =>
          .ok (.single (match raw with
            | .single r => .singleBasicRequirement title r
            | .many rs => .basicRequirements title rs
            | .singleCourse rt c =>
                .singleBasicRequirement title (.courses rt [CourseEntry.course c])))

/-- `RequirementsVisitor::visit_seq`: `while let Ok(Some(module)) =
seq.next_element()` — an element that fails to decode ends the loop
*without* surfacing the error, and the modules collected so far are
returned as `Ok(Requirements::Many(...))`. -/
def requirementsVisitSeq (ext : ExternalDecoders) : List Json → List RequirementModule
  | [] => []
  | e :: rest =>
      match decodeRequirementModule ext e with
      | .ok m => m :: requirementsVisitSeq ext rest
      | .error _ => []

/-- `impl Deserialize for Requirements` (`deserialize_any`): an object
takes `visit_map`, an array `visit_seq`. -/
def decodeRequirements (ext : ExternalDecoders) (v : Json) : Except DeError Requirements :=
  match v with
  | .obj fields =>
      match mapLoop (rqStep ext) rqInit fields with
      | .error e => .error e
      | .ok st => rqFinish st
  | .arr xs => .ok (.many (requirementsVisitSeq ext xs))
  | _ => .error (.invalidType
      "a JSON object representing a RequirementModule or a JSON array of RequirementModules")

/-! ### CourseDetails -/

/-- Rust `extract_guid_from_requisite` (mod.rs): requires a JSON
object, reads its `GUID` key, requires a string, slices off the first
and last byte unchecked (a panic when impossible), and parses.  The
Rust function returns `Result<Guid, String>`; the strings are modelled
by `ErrMsg` constructors, and the caller's
`.map_err(de::Error::custom)` is folded in. -/
def extract_guid_from_requisite (v : Json) : Except DeError Guid :=
  match v with
  | .obj fields =>
      match jsonGet fields "GUID" with
      | none => .error (.custom .missingGUIDInRequisite)
      | some (.str s) =>
          match sliceOffFirstAndLastByte s with
          | none => .error .panic
          | some mid =>
              match Guid.try_from mid with
              | .ok g => .ok g
              | .error e => .error (.custom (.guidParsing e))
      | some _ => .error (.custom .expectedJsonStringGUID)
  | _ => .error (.custom .expectedJsonObject)

/-- The `credits_min` block of `CourseDetailsVisitor::visit_map`
(lines 596-611): missing slot errors; a present `null` defaults to 0; a
present string is parsed as `f32`, rejected when `> u8::MAX as f32`
(NaN passes), else `.trunc() as u8`. -/
def creditsMinFromSlot (slot : Option (Option Str)) : Except DeError Nat :=
  match slot with
  | none => .error (.missingField "credits_min")
  | some none => .ok 0
  | some (some s) =>
      match parseF32 s with
      | none => .error (.custom .invalidFloatLiteral)
      | some f =>
          if f.gt255 then .error (.custom .creditsMinExceeded)
          else .ok f.truncSatU8

/-- The `credits_max` block of `CourseDetailsVisitor::visit_map`
(lines 613-630): missing slot errors; a present `null` stays `None`; a
present string is parsed as `f32`, accepted when `<= u8::MAX as f32`
(NaN therefore fails), else the exceeded-255 error. -/
def creditsMaxFromSlot (slot : Option (Option Str)) : Except DeError (Option Nat) :=
  match slot with
  | none => .error (.missingField "credits_max")
  | some none => .ok none
  | some (some s) =>
      match parseF32 s with
      | none => .error (.custom .invalidFloatLiteral)
      | some f =>
          if f.le255 then .ok (some f.truncSatU8)
          else .error (.custom .creditsMaxExceeded)

/-- The optional `prerequisite` / `corequisite` extraction
(lines 633-638): absent stays `None`, present goes through
`extract_guid_from_requisite`. -/
def requisiteFromSlot (slot : Option Json) : Except DeError (Option Guid) :=
  match slot with
  | none => .ok none
  | some v =>
      match extract_guid_from_requisite v with
      | .ok g => .ok (some g)
      | .error e => .error e

/-- The local slots of `CourseDetailsVisitor::visit_map`.  The `GUID`
value is kept as its raw string and sliced in the finishing step, as in
the source. -/
structure CDSlots where
  url : Option Str
  guid : Option Str
  path : Option Str
  subject_code : Option Str
  subject_name : Option (Option Str)
  number : Option Str
  name : Option Str
  credits_min : Option (Option Str)
  credits_max : Option (Option Str)
  description : Option Str
  prerequisite_narrative : Option (Option Str)
  prerequisite : Option Json
  corequisite_narrative : Option (Option Str)
  corequisite : Option Json

/-- All slots start unset. -/
def cdInit : CDSlots :=
  ⟨none, none, none, none, none, none, none, none, none, none, none, none, none, none⟩

/-- One key of the `CourseDetailsVisitor::visit_map` loop.  Note the
duplicate check for the `GUID` key names `"guid"` (source line 501);
`prerequisite` / `corequisite` are buffered as raw `Value`s, which
always succeeds. -/
def cdStep (st : CDSlots) (f : String × Json) : Except DeError CDSlots :=
  if f.1 = "url" then
    if st.url.isSome then .error (.duplicateField "url")
    else match decodeString f.2 with
      | .error e => .error e
      | .ok s => .ok { st with url := some s }
  else if f.1 = "GUID" then
    if st.guid.isSome then .error (.duplicateField "guid")
    else match decodeString f.2 with
      | .error e => .error e
      | .ok s => .ok { st with guid := some s }
  else if f.1 = "path" then
    if st.path.isSome then .error (.duplicateField "path")
    else match decodeString f.2 with
      | .error e => .error e
      | .ok s => .ok { st with path := some s }
  else if f.1 = "subject_code" then
    if st.subject_code.isSome then .error (.duplicateField "subject_code")
    else match decodeString f.2 with
      | .error e => .error e
      | .ok s => .ok { st with subject_code := some s }
  else if f.1 = "subject_name" then
    if st.subject_name.isSome then .error (.duplicateField "subject_name")
    else match decodeOptionString f.2 with
      | .error e => .error e
      | .ok s => .ok { st with subject_name := some s }
  else if f.1 = "number" then
    if st.number.isSome then .error (.duplicateField "number")
    else match decodeString f.2 with
      | .error e => .error e
      | .ok s => .ok { st with number := some s }
  else if f.1 = "name" then
    if st.name.isSome then .error (.duplicateField "name")
    else match decodeString f.2 with
      | .error e => .error e
      | .ok s => .ok { st with name := some s }
  else if f.1 = "credits_min" then
    if st.credits_min.isSome then .error (.duplicateField "credits_min")
    else match decodeOptionString f.2 with
      | .error e => .error e
      | .ok s => .ok { st with credits_min := some s }
  else if f.1 = "credits_max" then
    if st.credits_max.isSome then .error (.duplicateField "credits_max")
    else match decodeOptionString f.2 with
      | .error e => .error e
      | .ok s => .ok { st with credits_max := some s }
  else if f.1 = "description" then
    if st.description.isSome then .error (.duplicateField "description")
    else match decodeString f.2 with
      | .error e => .error e
      | .ok s => .ok { st with description := some s }
  else if f.1 = "prerequisite_narrative" then
    if st.prerequisite_narrative.isSome then .error (.duplicateField "prerequisite_narrative")
    else match decodeOptionString f.2 with
      | .error e => .error e
      | .ok s => .ok { st with prerequisite_narrative := some s }
  else if f.1 = "prerequisite" then
    if st.prerequisite.isSome then .error (.duplicateField "prerequisite")
    else .ok { st with prerequisite := some f.2 }
  else if f.1 = "corequisite_narrative" then
    if st.corequisite_narrative.isSome then .error (.duplicateField "corequisite_narrative")
    else match decodeOptionString f.2 with
      | .error e => .error e
      | .ok s => .ok { st with corequisite_narrative := some s }
  else if f.1 = "corequisite" then
    if st.corequisite.isSome then .error (.duplicateField "corequisite")
    else .ok { st with corequisite := some f.2 }
  else .ok st

/-- The checks after the `CourseDetailsVisitor::visit_map` loop, in
source order: nine `ok_or` missing-field checks, the two credits
blocks, the optional requisite extractions, then the `GUID` field
(missing check, unchecked slice, parse) and construction. -/
def cdFinish (st : CDSlots) : Except DeError CourseDetails :=
  match st.url with
  | none => .error (.missingField "url")
  | some url =>
  match st.path with
  | none => .error (.missingField "path")
  | some path =>
  match st.subject_code with
  | none => .error (.missingField "subject_code")
  | some subject_code =>
  match st.subject_name with
  | none => .error (.missingField "subject_name")
  | some subject_name =>
  match st.number with
  | none => .error (.missingField "number")
  | some number =>
  match st.name with
  | none => .error (.missingField "name")
  | some name =>
  match st.description with
  | none => .error (.missingField "description")
  | some description =>
  match st.prerequisite_narrative with
  | none => .error (.missingField "prerequisite_narrative")
  | some prerequisite_narrative =>
  match st.corequisite_narrative with
  | none => .error (.missingField "corequisite_narrative")
  | some corequisite_narrative =>
  match creditsMinFromSlot st.credits_min with
  | .error e => .error e
  | .ok credits_min =>
  match creditsMaxFromSlot st.credits_max with
  | .error e => .error e
  | .ok credits_max =>
  match requisiteFromSlot st.prerequisite with
  | .error e => .error e
  | .ok prerequisite =>
  match requisiteFromSlot st.corequisite with
  | .error e => .error e
  | .ok corequisite =>
  match st.guid with
  | none => .error (.missingField "GUID")
  | some gs =>
  match sliceOffFirstAndLastByte gs with
  | none => .error .panic
  | some mid =>
  match Guid.try_from mid with
  | .error e => .error (.custom (.guidParsing e))
  | .ok guid =>
      .ok ⟨url, guid, path, subject_code, subject_name, number, name, credits_min,
        credits_max, description, prerequisite_narrative, prerequisite,
        corequisite_narrative, corequisite⟩

/-- `impl Deserialize for CourseDetails` (`deserialize_map`). -/
def decodeCourseDetails (v : Json) : Except DeError CourseDetails :=
  match v with
  | .obj fields =>
      match mapLoop cdStep cdInit fields with
      | .error e => .error e
      | .ok st => cdFinish st
  | _ => .error (.invalidType "a JSON object representing a CourseDetail struct")

/-- Rust `deserialize_and_floor_u8_from_float_str` (mod.rs lines
698-715): deserialize a string, parse as `f32`, reject iff
`float > 255.0` (NaN passes), else `float.trunc() as u8`. -/
def deserialize_and_floor_u8_from_float_str (v : Json) : Except DeError Nat :=
  match v with
  | .str s =>
      match parseF32 s with
      | none => .error (.custom .failedToParseF32)
      | some f =>
          if f.gt255 then .error (.custom (.expectedLt255 f))
          else .ok f.truncSatU8
  | _ => .error (.invalidType "a string")

/-! ### Generic key-loop lemmas -/

theorem mapLoop_dup_run (step : σ → String × Json → Except DeError σ)
    (st0 : σ) (pre : List (String × Json)) (k : String) (v : Json)
    (rest : List (String × Json)) (st : σ) (e : DeError)
    (hloop : mapLoop step st0 pre = .ok st)
    (hstep : step st (k, v) = .error e) :
    mapLoop step st0 (pre ++ (k, v) :: rest) = .error e := by
  rw [mapLoop_append, hloop]
  simp [mapLoop, hstep]

theorem mapLoop_skip_run (step : σ → String × Json → Except DeError σ)
    (st0 : σ) (pre post : List (String × Json)) (k : String) (v : Json)
    (hstep : ∀ st : σ, step st (k, v) = .ok st) :
    mapLoop step st0 (pre ++ (k, v) :: post) = mapLoop step st0 (pre ++ post) := by
  rw [mapLoop_append, mapLoop_append]
  match h : mapLoop step st0 pre with
  | .error e => rfl
  | .ok st2 => simp [mapLoop, hstep st2]

/-! ### Recognized keys, filled slots and duplicate names per visitor -/

/-- The keys `RequirementsVisitor::visit_map` recognizes. -/
def rqRecognized (k : String) : Bool :=
  k = "title" || k = "req_narrative" || k = "requirement_list"

/-- Whether a recognized key's slot is already set (`Requirements`). -/
def rqFilled (st : RQSlots) (k : String) : Bool :=
  if k = "title" then st.title.isSome
  else if k = "req_narrative" then st.req_narrative.isSome
  else if k = "requirement_list" then st.requirement_list.isSome
  else false

theorem rqStep_dup (ext : ExternalDecoders) (st : RQSlots) (k : String) (v : Json)
    (h : rqFilled st k = true) :
    rqStep ext st (k, v) = .error (.duplicateField k) := by
  by_cases h1 : k = "title"
  · subst h1
    have hs : st.title.isSome = true := by simpa [rqFilled] using h
    simp [rqStep, hs]
  by_cases h2 : k = "req_narrative"
  · subst h2
    have hs : st.req_narrative.isSome = true := by simpa [rqFilled] using h
    simp [rqStep, hs]
  by_cases h3 : k = "requirement_list"
  · subst h3
    have hs : st.requirement_list.isSome = true := by simpa [rqFilled] using h
    simp [rqStep, hs]
  · simp [rqFilled, h1, h2, h3] at h

theorem rqStep_skip (ext : ExternalDecoders) (st : RQSlots) (k : String) (v : Json)
    (h : rqRecognized k = false) :
    rqStep ext st (k, v) = .ok st := by
  simp only [rqRecognized, Bool.or_eq_false_iff, decide_eq_false_iff_not] at h
  obtain ⟨⟨h1, h2⟩, h3⟩ := h
  simp [rqStep, h1, h2, h3]

/-- The keys the `RMSlots` loop recognizes. -/
def rmRecognized (k : String) : Bool :=
  k = "title" || k = "requirement_list"

/-- Whether a recognized key's slot is already set. -/
def rmFilled (st : RMSlots) (k : String) : Bool :=
  if k = "title" then st.title.isSome
  else if k = "requirement_list" then st.requirements.isSome
  else false

theorem rmStep_dup (ext : ExternalDecoders) (st : RMSlots) (k : String) (v : Json)
    (h : rmFilled st k = true) :
    rmStep ext st (k, v) = .error (.duplicateField k) := by
  by_cases h1 : k = "title"
  · subst h1
    have hs : st.title.isSome = true := by simpa [rmFilled] using h
    simp [rmStep, hs]
  by_cases h2 : k = "requirement_list"
  · subst h2
    have hs : st.requirements.isSome = true := by simpa [rmFilled] using h
    simp [rmStep, hs]
  · simp [rmFilled, h1, h2] at h

theorem rmStep_skip (ext : ExternalDecoders) (st : RMSlots) (k : String) (v : Json)
    (h : rmRecognized k = false) :
    rmStep ext st (k, v) = .ok st := by
  simp only [rmRecognized, Bool.or_eq_false_iff, decide_eq_false_iff_not] at h
  obtain ⟨h1, h2⟩ := h
  simp [rmStep, h1, h2]

/-- The keys the `ReqSlots` loop recognizes. -/
def reqRecognized (k : String) : Bool :=
  k = "title" || k = "req_narrative" || k = "course"

/-- Whether a recognized key's slot is already set. -/
def reqFilled (st : ReqSlots) (k : String) : Bool :=
  if k = "title" then st.title.isSome
  else if k = "req_narrative" then st.req_narrative.isSome
  else if k = "course" then st.courses.isSome
  else false

theorem reqStep_dup (ext : ExternalDecoders) (st : ReqSlots) (k : String) (v : Json)
    (h : reqFilled st k = true) :
    reqStep ext st (k, v) = .error (.duplicateField k) := by
  by_cases h1 : k = "title"
  · subst h1
    have hs : st.title.isSome = true := by simpa [reqFilled] using h
    simp [reqStep, hs]
  by_cases h2 : k = "req_narrative"
  · subst h2
    have hs : st.req_narrative.isSome = true := by simpa [reqFilled] using h
    simp [reqStep, hs]
  by_cases h3 : k = "course"
  · subst h3
    have hs : st.courses.isSome = true := by simpa [reqFilled] using h
    simp [reqStep, hs]
  · simp [reqFilled, h1, h2, h3] at h

theorem reqStep_skip (ext : ExternalDecoders) (st : ReqSlots) (k : String) (v : Json)
    (h : reqRecognized k = false) :
    reqStep ext st (k, v) = .ok st := by
  simp only [reqRecognized, Bool.or_eq_false_iff, decide_eq_false_iff_not] at h
  obtain ⟨⟨h1, h2⟩, h3⟩ := h
  simp [reqStep, h1, h2, h3]

/-- The keys the `CESlots` loop recognizes. -/
def ceRecognized (k : String) : Bool :=
  k = "url" || k = "path" || k = "guid" || k = "name" || k = "number" || k = "subject_name" || k = "subject_code" || k = "credits" || k = "is_narrative"

/-- Whether a recognized key's slot is already set. -/
def ceFilled (st : CESlots) (k : String) : Bool :=
  if k = "url" then st.url.isSome
  else if k = "path" then st.path.isSome
  else if k = "guid" then st.guid.isSome
  else if k = "name" then st.name.isSome
  else if k = "number" then st.number.isSome
  else if k = "subject_name" then st.subject_name.isSome
  else if k = "subject_code" then st.subject_code.isSome
  else if k = "credits" then st.credits.isSome
  else if k = "is_narrative" then st.is_narrative.isSome
  else false

theorem ceStep_dup (st : CESlots) (k : String) (v : Json)
    (h : ceFilled st k = true) :
    ceStep st (k, v) = .error (.duplicateField k) := by
  by_cases h1 : k = "url"
  · subst h1
    have hs : st.url.isSome = true := by simpa [ceFilled] using h
    simp [ceStep, hs]
  by_cases h2 : k = "path"
  · subst h2
    have hs : st.path.isSome = true := by simpa [ceFilled] using h
    simp [ceStep, hs]
  by_cases h3 : k = "guid"
  · subst h3
    have hs : st.guid.isSome = true := by simpa [ceFilled] using h
    simp [ceStep, hs]
  by_cases h4 : k = "name"
  · subst h4
    have hs : st.name.isSome = true := by simpa [ceFilled] using h
    simp [ceStep, hs]
  by_cases h5 : k = "number"
  · subst h5
    have hs : st.number.isSome = true := by simpa [ceFilled] using h
    simp [ceStep, hs]
  by_cases h6 : k = "subject_name"
  · subst h6
    have hs : st.subject_name.isSome = true := by simpa [ceFilled] using h
    simp [ceStep, hs]
  by_cases h7 : k = "subject_code"
  · subst h7
    have hs : st.subject_code.isSome = true := by simpa [ceFilled] using h
    simp [ceStep, hs]
  by_cases h8 : k = "credits"
  · subst h8
    have hs : st.credits.isSome = true := by simpa [ceFilled] using h
    simp [ceStep, hs]
  by_cases h9 : k = "is_narrative"
  · subst h9
    have hs : st.is_narrative.isSome = true := by simpa [ceFilled] using h
    simp [ceStep, hs]
  · simp [ceFilled, h1, h2, h3, h4, h5, h6, h7, h8, h9] at h

theorem ceStep_skip (st : CESlots) (k : String) (v : Json)
    (h : ceRecognized k = false) :
    ceStep st (k, v) = .ok st := by
  simp only [ceRecognized, Bool.or_eq_false_iff, decide_eq_false_iff_not] at h
  obtain ⟨⟨⟨⟨⟨⟨⟨⟨h1, h2⟩, h3⟩, h4⟩, h5⟩, h6⟩, h7⟩, h8⟩, h9⟩ := h
  simp [ceStep, h1, h2, h3, h4, h5, h6, h7, h8, h9]

/-- The keys the `CDSlots` loop recognizes. -/
def cdRecognized (k : String) : Bool :=
  k = "url" || k = "GUID" || k = "path" || k = "subject_code" || k = "subject_name" || k = "number" || k = "name" || k = "credits_min" || k = "credits_max" || k = "description" || k = "prerequisite_narrative" || k = "prerequisite" || k = "corequisite_narrative" || k = "corequisite"

/-- Whether a recognized key's slot is already set. -/
def cdFilled (st : CDSlots) (k : String) : Bool :=
  if k = "url" then st.url.isSome
  else if k = "GUID" then st.guid.isSome
  else if k = "path" then st.path.isSome
  else if k = "subject_code" then st.subject_code.isSome
  else if k = "subject_name" then st.subject_name.isSome
  else if k = "number" then st.number.isSome
  else if k = "name" then st.name.isSome
  else if k = "credits_min" then st.credits_min.isSome
  else if k = "credits_max" then st.credits_max.isSome
  else if k = "description" then st.description.isSome
  else if k = "prerequisite_narrative" then st.prerequisite_narrative.isSome
  else if k = "prerequisite" then st.prerequisite.isSome
  else if k = "corequisite_narrative" then st.corequisite_narrative.isSome
  else if k = "corequisite" then st.corequisite.isSome
  else false

/-- The name reported for a duplicate key by `CourseDetailsVisitor`:
the duplicate check for `GUID` names `"guid"` (source line 501). -/
def cdDupName (k : String) : String := if k = "GUID" then "guid" else k

theorem cdStep_dup (st : CDSlots) (k : String) (v : Json)
    (h : cdFilled st k = true) :
    cdStep st (k, v) = .error (.duplicateField (cdDupName k)) := by
  by_cases h1 : k = "url"
  · subst h1
    have hs : st.url.isSome = true := by simpa [cdFilled] using h
    simp [cdStep, hs, cdDupName]
  by_cases h2 : k = "GUID"
  · subst h2
    have hs : st.guid.isSome = true := by simpa [cdFilled] using h
    simp [cdStep, hs, cdDupName]
  by_cases h3 : k = "path"
  · subst h3
    have hs : st.path.isSome = true := by simpa [cdFilled] using h
    simp [cdStep, hs, cdDupName]
  by_cases h4 : k = "subject_code"
  · subst h4
    have hs : st.subject_code.isSome = true := by simpa [cdFilled] using h
    simp [cdStep, hs, cdDupName]
  by_cases h5 : k = "subject_name"
  · subst h5
    have hs : st.subject_name.isSome = true := by simpa [cdFilled] using h
    simp [cdStep, hs, cdDupName]
  by_cases h6 : k = "number"
  · subst h6
    have hs : st.number.isSome = true := by simpa [cdFilled] using h
    simp [cdStep, hs, cdDupName]
  by_cases h7 : k = "name"
  · subst h7
    have hs : st.name.isSome = true := by simpa [cdFilled] using h
    simp [cdStep, hs, cdDupName]
  by_cases h8 : k = "credits_min"
  · subst h8
    have hs : st.credits_min.isSome = true := by simpa [cdFilled] using h
    simp [cdStep, hs, cdDupName]
  by_cases h9 : k = "credits_max"
  · subst h9
    have hs : st.credits_max.isSome = true := by simpa [cdFilled] using h
    simp [cdStep, hs, cdDupName]
  by_cases h10 : k = "description"
  · subst h10
    have hs : st.description.isSome = true := by simpa [cdFilled] using h
    simp [cdStep, hs, cdDupName]
  by_cases h11 : k = "prerequisite_narrative"
  · subst h11
    have hs : st.prerequisite_narrative.isSome = true := by simpa [cdFilled] using h
    simp [cdStep, hs, cdDupName]
  by_cases h12 : k = "prerequisite"
  · subst h12
    have hs : st.prerequisite.isSome = true := by simpa [cdFilled] using h
    simp [cdStep, hs, cdDupName]
  by_cases h13 : k = "corequisite_narrative"
  · subst h13
    have hs : st.corequisite_narrative.isSome = true := by simpa [cdFilled] using h
    simp [cdStep, hs, cdDupName]
  by_cases h14 : k = "corequisite"
  · subst h14
    have hs : st.corequisite.isSome = true := by simpa [cdFilled] using h
    simp [cdStep, hs, cdDupName]
  · simp [cdFilled, h1, h2, h3, h4, h5, h6, h7, h8, h9, h10, h11, h12, h13, h14] at h

theorem cdStep_skip (st : CDSlots) (k : String) (v : Json)
    (h : cdRecognized k = false) :
    cdStep st (k, v) = .ok st := by
  simp only [cdRecognized, Bool.or_eq_false_iff, decide_eq_false_iff_not] at h
  obtain ⟨⟨⟨⟨⟨⟨⟨⟨⟨⟨⟨⟨⟨h1, h2⟩, h3⟩, h4⟩, h5⟩, h6⟩, h7⟩, h8⟩, h9⟩, h10⟩, h11⟩, h12⟩, h13⟩, h14⟩ := h
  simp [cdStep, h1, h2, h3, h4, h5, h6, h7, h8, h9, h10, h11, h12, h13, h14]

/-! ### C9 : unchecked brace stripping -/

theorem strLen_cons (c : Char) (s : Str) : strLen (c :: s) = c.utf8Size + strLen s := by
  simp [strLen]

theorem utf8Size_ge_two_of_ne_one (c : Char) (h : c.utf8Size ≠ 1) : 2 ≤ c.utf8Size := by
  have := Char.utf8Size_pos c
  omega

theorem slice_none_of_first_multibyte (c : Char) (s : Str) (h : c.utf8Size ≠ 1) :
    sliceOffFirstAndLastByte (c :: s) = none := by
  by_cases h2 : strLen (c :: s) < 2
  · simp [sliceOffFirstAndLastByte, h2]
  · simp [sliceOffFirstAndLastByte, h2, h]

theorem slice_none_of_last_multibyte (s : Str) (c : Char) (h : c.utf8Size ≠ 1) :
    sliceOffFirstAndLastByte (s ++ [c]) = none := by
  match s with
  | [] => simpa using slice_none_of_first_multibyte c [] h
  | d :: t =>
      by_cases h2 : strLen (d :: (t ++ [c])) < 2
      · simp [sliceOffFirstAndLastByte, h2]
      · by_cases h3 : d.utf8Size = 1
        · simp [sliceOffFirstAndLastByte, h2, h3, List.getLast?_concat, h]
        · simp [sliceOffFirstAndLastByte, h2, h3]

theorem slice_strips_first_and_last (a b : Char) (mid : Str)
    (ha : a.utf8Size = 1) (hb : b.utf8Size = 1) :
    sliceOffFirstAndLastByte (a :: mid ++ [b]) = some mid := by
  have e1 : strLen (a :: (mid ++ [b])) = a.utf8Size + strLen (mid ++ [b]) := strLen_cons _ _
  have e2 : strLen (mid ++ [b]) = strLen mid + strLen [b] := strLen_append _ _
  have e3 : strLen [b] = b.utf8Size + strLen [] := strLen_cons _ _
  have e4 : strLen ([] : Str) = 0 := rfl
  have h2 : ¬ strLen (a :: (mid ++ [b])) < 2 := by omega
  simp only [sliceOffFirstAndLastByte, List.cons_append]
  rw [if_neg h2]
  simp [ha, List.getLast?_concat, hb, List.dropLast_concat]

/-- C9: every brace-wrapped identifier decode path removes exactly the
first and last byte by unchecked slicing (`&s[1..s.len() - 1]`): inputs
under 2 bytes panic, inputs whose first or last character is multi-byte
(byte 1 or `len - 1` not on a character boundary) panic, and for inputs
of workable shape the enclosing characters are silently stripped —
never compared against `{` and `}` — and the remainder is parsed as if
braces had been present.  The conjuncts cover
`deserialize_guid_with_curly_braces`, the `guid` key of
`CourseEntriesVisitor::visit_map` and `extract_guid_from_requisite`;
`CourseDetailsVisitor` applies the same `sliceOffFirstAndLastByte` in
`cdFinish`. -/
theorem c9_brace_stripping :
    (∀ s : Str, strLen s < 2 →
      deserialize_guid_with_curly_braces (.str s) = .error .panic) ∧
    (∀ (c : Char) (s : Str), c.utf8Size ≠ 1 →
      deserialize_guid_with_curly_braces (.str (c :: s)) = .error .panic) ∧
    (∀ (s : Str) (c : Char), c.utf8Size ≠ 1 →
      deserialize_guid_with_curly_braces (.str (s ++ [c])) = .error .panic) ∧
    (∀ (a b : Char) (mid : Str), a.utf8Size = 1 → b.utf8Size = 1 →
      deserialize_guid_with_curly_braces (.str (a :: mid ++ [b]))
        = match Guid.try_from mid with
          | .ok g => .ok g
          | .error e => .error (.custom (.guidParsing e))) ∧
    (∀ (st : CESlots) (s : Str), st.guid = none → strLen s < 2 →
      ceStep st ("guid", .str s) = .error .panic) ∧
    (∀ s : Str, strLen s < 2 →
      extract_guid_from_requisite (.obj [("GUID", .str s)]) = .error .panic) := by
  refine ⟨?_, ?_, ?_, ?_, ?_, ?_⟩
  · intro s h
    simp [deserialize_guid_with_curly_braces, sliceOffFirstAndLastByte, h]
  · intro c s h
    simp [deserialize_guid_with_curly_braces, slice_none_of_first_multibyte c s h]
  · intro s c h
    simp [deserialize_guid_with_curly_braces, slice_none_of_last_multibyte s c h]
  · intro a b mid ha hb
    simp only [deserialize_guid_with_curly_braces]
    rw [slice_strips_first_and_last a b mid ha hb]
  · intro st s hg h
    have : st.guid.isSome = false := by simp [hg]
    simp [ceStep, this, sliceOffFirstAndLastByte, h]
  · intro s h
    have hget : jsonGet [("GUID", .str s)] "GUID" = some (.str s) := rfl
    simp [extract_guid_from_requisite, hget, sliceOffFirstAndLastByte, h]

theorem c9_brace_stripping_witness :
    deserialize_guid_with_curly_braces (.str []) = .error .panic ∧
    deserialize_guid_with_curly_braces (.str [Char.ofNat 233, '0']) = .error .panic ∧
    deserialize_guid_with_curly_braces (.str ("0".data ++ [Char.ofNat 233])) = .error .panic ∧
    deserialize_guid_with_curly_braces
        (.str ('X' :: "00000000000000000000000000000000".data ++ ['Y']))
      = .ok ⟨List.replicate 16 0⟩ ∧
    ceStep ceInit ("guid", .str ['a']) = .error .panic ∧
    extract_guid_from_requisite (.obj [("GUID", .str ['a'])]) = .error .panic :=
  ⟨c9_brace_stripping.1 [] (by decide),
   c9_brace_stripping.2.1 (Char.ofNat 233) ['0'] (by decide),
   c9_brace_stripping.2.2.1 "0".data (Char.ofNat 233) (by decide),
   by rw [c9_brace_stripping.2.2.2.1 'X' 'Y' _ rfl rfl]; rfl,
   c9_brace_stripping.2.2.2.2.1 ceInit ['a'] rfl (by decide),
   c9_brace_stripping.2.2.2.2.2 ['a'] (by decide)⟩

/-! ### C10 : only the upper bound is enforced -/

/-- C10: the floored-integer decoder
(`deserialize_and_floor_u8_from_float_str`, and the identical
`credits_min` block) enforces only the upper bound: every text parsing
to a float that is not greater than 255 — negative values and NaN
included — decodes successfully to the saturating cast of the
truncation, so `"-3"` and `"NaN"` yield 0; there is no lower-bound or
NaN rejection. -/
theorem c10_floor_decoder_lower_bound :
    (∀ (s : Str) (f : F32), parseF32 s = some f → f.gt255 = false →
      deserialize_and_floor_u8_from_float_str (.str s) = .ok f.truncSatU8) ∧
    (∀ (s : Str) (f : F32), parseF32 s = some f → f.gt255 = false →
      creditsMinFromSlot (some (some s)) = .ok f.truncSatU8) ∧
    deserialize_and_floor_u8_from_float_str (.str "-3".data) = .ok 0 ∧
    deserialize_and_floor_u8_from_float_str (.str "NaN".data) = .ok 0 ∧
    creditsMinFromSlot (some (some "-3".data)) = .ok 0 ∧
    (∀ m e : ℤ, m < 0 → (F32.fin m e).truncSatU8 = 0) ∧
    F32.nan.truncSatU8 = 0 := by
  refine ⟨?_, ?_, rfl, rfl, rfl, ?_, rfl⟩
  · intro s f hp hgt
    simp [deserialize_and_floor_u8_from_float_str, hp, hgt]
  · intro s f hp hgt
    simp [creditsMinFromSlot, hp, hgt]
  · intro m e hm
    simp only [F32.truncSatU8]
    by_cases he : 0 ≤ e
    · rw [if_pos he]
      have hpos : (0 : ℤ) < 10 ^ e.toNat := by positivity
      have hneg : m * 10 ^ e.toNat < 0 := mul_neg_of_neg_of_pos hm hpos
      simp [hneg]
    · rw [if_neg he]
      simp only [tdivTrunc, if_neg (by omega : ¬ (0 : ℤ) ≤ m)]
      have hk : (0 : ℤ) ≤ (((-m).toNat / 10 ^ (-e).toNat : ℕ) : ℤ) := by positivity
      split_ifs with h1 h2
      · rfl
      · omega
      · rw [Int.toNat_eq_zero]
        omega

theorem c10_floor_decoder_lower_bound_witness :
    deserialize_and_floor_u8_from_float_str (.str "-7.5".data)
      = .ok ((F32.fin (-75) (-1)).truncSatU8) ∧
    (F32.fin (-75) (-1)).truncSatU8 = 0 ∧
    creditsMinFromSlot (some (some "nan".data)) = .ok (F32.nan.truncSatU8) ∧
    (F32.fin (-3) 0).truncSatU8 = 0 :=
  ⟨c10_floor_decoder_lower_bound.1 "-7.5".data (.fin (-75) (-1)) (by decide) (by decide),
   by decide,
   c10_floor_decoder_lower_bound.2.1 "nan".data .nan (by decide) rfl,
   c10_floor_decoder_lower_bound.2.2.2.2.2.1 (-3) 0 (by decide)⟩

/-! ### C8 : the CourseDetails credits blocks -/

/-- C8 counterexample: `"NaN"` parses to a float that does not exceed
255 (`NaN > 255.0` is false), so the claim requires truncation to
succeed for both credits fields; `credits_min` indeed yields 0, but the
`credits_max` block tests `float <= 255.0` — false for NaN — and fails
instead. -/
theorem c8_counterexample :
    parseF32 "NaN".data = some .nan ∧
    F32.nan.gt255 = false ∧
    creditsMinFromSlot (some (some "NaN".data)) = .ok 0 ∧
    creditsMaxFromSlot (some (some "NaN".data)) = .error (.custom .creditsMaxExceeded) :=
  ⟨rfl, rfl, rfl, rfl⟩

/-- C8 (amended): a null `credits_min` defaults to 0 and a null
`credits_max` stays absent; a present `credits_min` string fails iff
its float compares greater than 255 (NaN therefore passes and truncates
to 0), while a present `credits_max` string succeeds iff its float
compares `<= 255` (NaN therefore fails); on success the value is the
saturating cast of the truncation toward zero.  For every non-NaN
float the two conditions coincide, so the claim's single
"fails iff exceeds 255" reading holds except at NaN for credits_max. -/
theorem c8_credits_blocks :
    creditsMinFromSlot (some none) = .ok 0 ∧
    creditsMaxFromSlot (some none) = .ok none ∧
    (∀ (s : Str) (f : F32), parseF32 s = some f →
      (f.gt255 = true →
        creditsMinFromSlot (some (some s)) = .error (.custom .creditsMinExceeded)) ∧
      (f.gt255 = false → creditsMinFromSlot (some (some s)) = .ok f.truncSatU8)) ∧
    (∀ (s : Str) (f : F32), parseF32 s = some f →
      (f.le255 = true → creditsMaxFromSlot (some (some s)) = .ok (some f.truncSatU8)) ∧
      (f.le255 = false →
        creditsMaxFromSlot (some (some s)) = .error (.custom .creditsMaxExceeded))) ∧
    (∀ f : F32, f ≠ .nan → f.le255 = !f.gt255) := by
  refine ⟨rfl, rfl, ?_, ?_, ?_⟩
  · intro s f hp
    constructor
    · intro h; simp [creditsMinFromSlot, hp, h]
    · intro h; simp [creditsMinFromSlot, hp, h]
  · intro s f hp
    constructor
    · intro h; simp [creditsMaxFromSlot, hp, h]
    · intro h; simp [creditsMaxFromSlot, hp, h]
  · intro f hf
    match f with
    | .nan => exact absurd rfl hf
    | .inf => rfl
    | .neginf => rfl
    | .fin m e =>
        simp only [F32.le255, F32.gt255]
        by_cases he : 0 ≤ e
        · rw [if_pos he, if_pos he]
          by_cases h : m * 10 ^ e.toNat ≤ 255
          · have h2 : ¬ (255 : ℤ) < m * 10 ^ e.toNat := by omega
            simp [h, h2]
          · have h2 : (255 : ℤ) < m * 10 ^ e.toNat := by omega
            simp [h, h2]
        · rw [if_neg he, if_neg he]
          by_cases h : m ≤ 255 * 10 ^ (-e).toNat
          · have h2 : ¬ (255 : ℤ) * 10 ^ (-e).toNat < m := by omega
            simp [h, h2]
          · have h2 : (255 : ℤ) * 10 ^ (-e).toNat < m := by omega
            simp [h, h2]

theorem c8_credits_blocks_witness :
    creditsMinFromSlot (some (some "300".data)) = .error (.custom .creditsMinExceeded) ∧
    creditsMinFromSlot (some (some "3.9".data)) = .ok ((F32.fin 39 (-1)).truncSatU8) ∧
    (F32.fin 39 (-1)).truncSatU8 = 3 ∧
    creditsMaxFromSlot (some (some "4.5".data)) = .ok (some ((F32.fin 45 (-1)).truncSatU8)) ∧
    (F32.fin 45 (-1)).truncSatU8 = 4 ∧
    creditsMaxFromSlot (some (some "256".data)) = .error (.custom .creditsMaxExceeded) ∧
    (F32.fin 300 0).le255 = !(F32.fin 300 0).gt255 :=
  ⟨((c8_credits_blocks.2.2.1 "300".data (.fin 300 0) (by decide)).1 (by decide)),
   ((c8_credits_blocks.2.2.1 "3.9".data (.fin 39 (-1)) (by decide)).2 (by decide)),
   by decide,
   ((c8_credits_blocks.2.2.2.1 "4.5".data (.fin 45 (-1)) (by decide)).1 (by decide)),
   by decide,
   ((c8_credits_blocks.2.2.2.1 "256".data (.fin 256 0) (by decide)).2 (by decide)),
   c8_credits_blocks.2.2.2.2 (.fin 300 0) (by simp)⟩

/-! ### C1 : Requirement variant precedence -/

/-- C1: for every keyed mapping decoded as a `Requirement` whose loop
succeeds with the required keys `title` and `req_narrative` decoded
(presence enforced by the loop's duplicate checks and the finishing
missing checks), the variant follows the precedence: a non-null title
containing `"Select"` yields `SelectFromCourses` with the optional
course entries regardless of the `course` key; otherwise present course
entries yield `Courses`; otherwise `Label` with only title and
narrative. -/
theorem c1_requirement_precedence (ext : ExternalDecoders)
    (fields : List (String × Json)) (st : ReqSlots) (t n : Option Str)
    (hloop : mapLoop (reqStep ext) reqInit fields = .ok st)
    (ht : st.title = some t) (hn : st.req_narrative = some n) :
    (∀ ttl, t = some ttl → containsSub ttl selectNeedle = true →
      decodeRequirementMap ext fields = .ok (.selectFromCourses ttl st.courses)) ∧
    ((∀ ttl, t = some ttl → containsSub ttl selectNeedle = false) →
      ∀ ce, st.courses = some ce →
      decodeRequirementMap ext fields = .ok (.courses t ce)) ∧
    ((∀ ttl, t = some ttl → containsSub ttl selectNeedle = false) →
      st.courses = none →
      decodeRequirementMap ext fields = .ok (.label t n)) := by
  have hbase : decodeRequirementMap ext fields
      = .ok (requirementFromParts t n st.courses) := by
    simp [decodeRequirementMap, hloop, reqFinish, ht, hn]
  refine ⟨?_, ?_, ?_⟩
  · intro ttl htt hsel
    subst htt
    simp [hbase, requirementFromParts, hsel]
  · intro hnot ce hce
    match t with
    | some ttl => simp [hbase, requirementFromParts, hnot ttl rfl, hce]
    | none => simp [hbase, requirementFromParts, hce]
  · intro hnot hce
    match t with
    | some ttl => simp [hbase, requirementFromParts, hnot ttl rfl, hce]
    | none => simp [hbase, requirementFromParts, hce]

theorem c1_requirement_precedence_witness :
    decodeRequirementMap extTrivial
      [("title", .str "Select one of the following".data), ("req_narrative", .null)]
      = .ok (.selectFromCourses "Select one of the following".data none) ∧
    decodeRequirementMap extTrivial
      [("title", .str "General Education".data), ("req_narrative", .str "x".data)]
      = .ok (.label (some "General Education".data) (some "x".data)) :=
  ⟨(c1_requirement_precedence extTrivial
      [("title", .str "Select one of the following".data), ("req_narrative", .null)]
      ⟨some (some "Select one of the following".data), some none, none⟩
      (some "Select one of the following".data) none rfl rfl rfl).1
      "Select one of the following".data rfl rfl,
   (c1_requirement_precedence extTrivial
      [("title", .str "General Education".data), ("req_narrative", .str "x".data)]
      ⟨some (some "General Education".data), some (some "x".data), none⟩
      (some "General Education".data) (some "x".data) rfl rfl rfl).2.2
      (fun ttl h => by cases h; rfl) rfl⟩

/-! ### C2 : the Requirements list path returns a partial prefix -/

/-- C2 counterexample: the second element of the list fails to decode
(`null` is not an object), yet the whole `Requirements` decode returns
`Ok(Many(..))` holding only the first module — the failure is neither
index-tagged nor propagated, and a partial result is returned. -/
theorem c2_counterexample :
    (decodeRequirementModule extTrivial Json.null).isOk = false ∧
    decodeRequirements extTrivial (.arr
      [.obj [("title", .null), ("requirement_list", .arr [])], Json.null])
      = .ok (.many [.basicRequirements none []]) :=
  ⟨rfl, rfl⟩

/-- All elements decoded, in order (a statement-side helper for C2). -/
def decodeModulesAll (ext : ExternalDecoders) : List Json → Except DeError (List RequirementModule)
  | [] => .ok []
  | x :: rest =>
      match decodeRequirementModule ext x with
      | .error e => .error e
      | .ok m =>
          match decodeModulesAll ext rest with
          | .error e => .error e
          | .ok ms => .ok (m :: ms)

theorem requirementsVisitSeq_all (ext : ExternalDecoders) :
    ∀ (elems : List Json) (ms : List RequirementModule),
      decodeModulesAll ext elems = .ok ms → requirementsVisitSeq ext elems = ms := by
  intro elems
  induction elems with
  | nil => intro ms h; cases h; rfl
  | cons x rest ih =>
      intro ms h
      simp only [decodeModulesAll] at h
      match hx : decodeRequirementModule ext x with
      | .error e => rw [hx] at h; cases h
      | .ok m =>
          rw [hx] at h
          match hr : decodeModulesAll ext rest with
          | .error e => rw [hr] at h; cases h
          | .ok ms2 =>
              rw [hr] at h
              cases h
              simp [requirementsVisitSeq, hx, ih ms2 hr]

/-- C2 (amended): when the raw `Requirements` input is a list, elements
are decoded independently in order; if all succeed they are collected as
`Many`, but at the first element that fails to decode the
`while let Ok(Some(..))` loop stops and the successfully decoded prefix
is returned as a non-error `Many` — the element's error is not
index-tagged, not surfaced, and a partial result is produced by this
visitor.  (Whether the enclosing serde machinery later rejects the
unconsumed input is outside this crate.) -/
theorem c2_visit_seq_stops_early (ext : ExternalDecoders) :
    (∀ elems ms, decodeModulesAll ext elems = .ok ms →
      decodeRequirements ext (.arr elems) = .ok (.many ms)) ∧
    (∀ pre e post ms, decodeModulesAll ext pre = .ok ms →
      (decodeRequirementModule ext e).isOk = false →
      decodeRequirements ext (.arr (pre ++ e :: post)) = .ok (.many ms)) := by
  constructor
  · intro elems ms h
    simp [decodeRequirements, requirementsVisitSeq_all ext elems ms h]
  · intro pre e post ms hpre hfail
    have hseq : requirementsVisitSeq ext (pre ++ e :: post) = ms := by
      induction pre generalizing ms with
      | nil =>
          cases hpre
          match hx : decodeRequirementModule ext e with
          | .ok m => rw [hx] at hfail; cases hfail
          | .error err => simp [requirementsVisitSeq, hx]
      | cons x rest ih =>
          simp only [decodeModulesAll] at hpre
          match hx : decodeRequirementModule ext x with
          | .error err => rw [hx] at hpre; cases hpre
          | .ok m =>
              rw [hx] at hpre
              match hr : decodeModulesAll ext rest with
              | .error err => rw [hr] at hpre; cases hpre
              | .ok ms2 =>
                  rw [hr] at hpre
                  cases hpre
                  simp [requirementsVisitSeq, hx, ih ms2 hr]
    simp [decodeRequirements, hseq]

theorem c2_visit_seq_stops_early_witness :
    decodeRequirements extTrivial
      (.arr [.obj [("title", .null), ("requirement_list", .arr [])]])
      = .ok (.many [.basicRequirements none []]) ∧
    decodeRequirements extTrivial
      (.arr [.obj [("title", .null), ("requirement_list", .arr [])], Json.null, Json.bool true])
      = .ok (.many [.basicRequirements none []]) :=
  ⟨(c2_visit_seq_stops_early extTrivial).1
      [.obj [("title", .null), ("requirement_list", .arr [])]]
      [.basicRequirements none []] rfl,
   (c2_visit_seq_stops_early extTrivial).2
      [.obj [("title", .null), ("requirement_list", .arr [])]]
      Json.null [Json.bool true] [.basicRequirements none []] rfl rfl⟩

/-! ### C7 : the single-object course path -/

/-- C7: in the single-object course decode, `is_narrative` must be
exactly `"True"` or `"False"` — any other string fails with an error
echoing it; with all nine required keys decoded, `"True"` with a null
`name` fails and otherwise produces a `Label` leaf, `"False"` with a
null `number` or `subject_code` fails and otherwise produces a `Course`
leaf; both successes are wrapped as a single-element `CourseEntries`. -/
theorem c7_single_object_course :
    (∀ (st : CESlots) (s : Str), st.is_narrative = none →
      s ≠ trueStr → s ≠ falseStr →
      ceStep st ("is_narrative", .str s) = .error (.custom (.expectedTrueFalse s))) ∧
    (∀ (fields : List (String × Json)) (st : CESlots)
      (url path : Str) (guid : Guid) (name number subject_name subject_code : Option Str)
      (credits : Nat × Option Nat),
      mapLoop ceStep ceInit fields = .ok st →
      st.url = some url → st.path = some path → st.guid = some guid →
      st.name = some name → st.number = some number →
      st.subject_name = some subject_name → st.subject_code = some subject_code →
      st.credits = some credits →
      ((st.is_narrative = some true →
        (name = none →
          decodeCourseEntriesMap fields = .error (.custom .nameNullForLabel)) ∧
        (∀ n0, name = some n0 →
          decodeCourseEntriesMap fields
            = .ok [CourseEntry.label ⟨url, guid, n0, subject_code, credits, number⟩])) ∧
      (st.is_narrative = some false →
        (number = none →
          decodeCourseEntriesMap fields = .error (.custom .numberNullForCourse)) ∧
        (∀ num, number = some num → subject_code = none →
          decodeCourseEntriesMap fields = .error (.custom .subjectCodeNullForCourse)) ∧
        (∀ num sc, number = some num → subject_code = some sc →
          decodeCourseEntriesMap fields
            = .ok [CourseEntry.course
                ⟨url, path, guid, name, num, subject_name, sc, credits⟩])))) := by
  constructor
  · intro st s hnone ht hf
    have hs : st.is_narrative.isSome = false := by simp [hnone]
    simp [ceStep, hs, ht, hf]
  · intro fields st url path guid name number subject_name subject_code credits
      hloop hurl hpath hguid hname hnumber hsn hsc hcr
    have hbase : decodeCourseEntriesMap fields = ceFinish st := by
      simp [decodeCourseEntriesMap, hloop]
    constructor
    · intro hnarr
      constructor
      · intro hn0
        rw [hbase]
        simp [ceFinish, hurl, hpath, hguid, hname, hnumber, hsn, hsc, hcr, hnarr, hn0]
      · intro n0 hn0
        rw [hbase]
        simp [ceFinish, hurl, hpath, hguid, hname, hnumber, hsn, hsc, hcr, hnarr, hn0]
    · intro hnarr
      refine ⟨?_, ?_, ?_⟩
      · intro hnum
        rw [hbase]
        simp [ceFinish, hurl, hpath, hguid, hname, hnumber, hsn, hsc, hcr, hnarr, hnum]
      · intro num hnum hsc0
        rw [hbase]
        simp [ceFinish, hurl, hpath, hguid, hname, hnumber, hsn, hsc, hcr, hnarr, hnum, hsc0]
      · intro num sc hnum hsc0
        rw [hbase]
        simp [ceFinish, hurl, hpath, hguid, hname, hnumber, hsn, hsc, hcr, hnarr, hnum, hsc0]

theorem c7_single_object_course_witness :
    ceStep ceInit ("is_narrative", .str "true".data)
      = .error (.custom (.expectedTrueFalse "true".data)) ∧
    decodeCourseEntriesMap
      [("url", .str "u".data), ("path", .str "p".data),
       ("guid", .str "\x7b00000000000000000000000000000000\x7d".data),
       ("name", .str "Narr".data), ("number", .null), ("subject_name", .null),
       ("subject_code", .null), ("credits", .str "3".data),
       ("is_narrative", .str "True".data)]
      = .ok [CourseEntry.label
          ⟨"u".data, ⟨List.replicate 16 0⟩, "Narr".data, none, (3, none), none⟩] ∧
    decodeCourseEntriesMap
      [("url", .str "u".data), ("path", .str "p".data),
       ("guid", .str "\x7b00000000000000000000000000000000\x7d".data),
       ("name", .null), ("number", .null), ("subject_name", .null),
       ("subject_code", .str "CSC".data), ("credits", .str "3-4".data),
       ("is_narrative", .str "False".data)]
      = .error (.custom .numberNullForCourse) ∧
    decodeCourseEntriesMap
      [("url", .str "u".data), ("path", .str "p".data),
       ("guid", .str "\x7b00000000000000000000000000000000\x7d".data),
       ("name", .null), ("number", .str "115".data), ("subject_name", .null),
       ("subject_code", .str "CSC".data), ("credits", .str "3-4".data),
       ("is_narrative", .str "False".data)]
      = .ok [CourseEntry.course
          ⟨"u".data, "p".data, ⟨List.replicate 16 0⟩, none, "115".data,
           none, "CSC".data, (3, some 4)⟩] :=
  ⟨c7_single_object_course.1 ceInit "true".data rfl (by decide) (by decide),
   ((c7_single_object_course.2
      [("url", .str "u".data), ("path", .str "p".data),
       ("guid", .str "\x7b00000000000000000000000000000000\x7d".data),
       ("name", .str "Narr".data), ("number", .null), ("subject_name", .null),
       ("subject_code", .null), ("credits", .str "3".data),
       ("is_narrative", .str "True".data)]
      ⟨some "u".data, some "p".data, some ⟨List.replicate 16 0⟩, some (some "Narr".data),
       some none, some none, some none, some (3, none), some true⟩
      "u".data "p".data ⟨List.replicate 16 0⟩ (some "Narr".data) none none none (3, none)
      rfl rfl rfl rfl rfl rfl rfl rfl rfl).1 rfl).2 "Narr".data rfl,
   ((c7_single_object_course.2
      [("url", .str "u".data), ("path", .str "p".data),
       ("guid", .str "\x7b00000000000000000000000000000000\x7d".data),
       ("name", .null), ("number", .null), ("subject_name", .null),
       ("subject_code", .str "CSC".data), ("credits", .str "3-4".data),
       ("is_narrative", .str "False".data)]
      ⟨some "u".data, some "p".data, some ⟨List.replicate 16 0⟩, some none,
       some none, some none, some (some "CSC".data), some (3, some 4), some false⟩
      "u".data "p".data ⟨List.replicate 16 0⟩ none none none (some "CSC".data) (3, some 4)
      rfl rfl rfl rfl rfl rfl rfl rfl rfl).2 rfl).1 rfl,
   ((c7_single_object_course.2
      [("url", .str "u".data), ("path", .str "p".data),
       ("guid", .str "\x7b00000000000000000000000000000000\x7d".data),
       ("name", .null), ("number", .str "115".data), ("subject_name", .null),
       ("subject_code", .str "CSC".data), ("credits", .str "3-4".data),
       ("is_narrative", .str "False".data)]
      ⟨some "u".data, some "p".data, some ⟨List.replicate 16 0⟩, some none,
       some (some "115".data), some none, some (some "CSC".data), some (3, some 4), some false⟩
      "u".data "p".data ⟨List.replicate 16 0⟩ none (some "115".data) none
      (some "CSC".data) (3, some 4)
      rfl rfl rfl rfl rfl rfl rfl rfl rfl).2 rfl).2.2 "115".data "CSC".data rfl rfl⟩

/-! ### C6 : duplicate / missing / unrecognized key policy -/

/-- C6 counterexample: the claim says a missing required key yields a
missing-field error naming that key, e.g. a missing `requirement_list`
names `requirement_list`; but `RequirementModuleVisitor` names it
`"requirements"`, `RequirementsVisitor` names it `"requirements_list"`,
and `CourseDetailsVisitor` reports a duplicate `GUID` key as
`"guid"`. -/
theorem c6_counterexample :
    decodeRequirementModule extTrivial (.obj [("title", .null)])
      = .error (.missingField "requirements") ∧
    "requirements" ≠ "requirement_list" ∧
    decodeRequirements extTrivial (.obj [("title", .null)])
      = .error (.missingField "requirements_list") ∧
    "requirements_list" ≠ "requirement_list" ∧
    decodeCourseDetails
      (.obj [("GUID", .str "g".data), ("GUID", .str "g".data)])
      = .error (.duplicateField "guid") ∧
    "guid" ≠ "GUID" :=
  ⟨rfl, by decide, rfl, by decide, rfl, by decide⟩

/-- C6 (amended): for every mapping-keyed decode — `Requirements`,
`RequirementModule`, `Requirement`, single-object `CourseEntries`,
`CourseDetails` — a recognized key whose slot is already set fails with
a duplicate-field error naming that key (except `CourseDetails`, which
names a duplicate `GUID` as `"guid"`); reaching end of input without a
required key fails with a missing-field error naming that key, except
that an absent `requirement_list` is named `"requirements_list"` by the
`Requirements` decode and `"requirements"` by the `RequirementModule`
decode; unrecognized keys are read and discarded without error. -/
theorem c6_key_policy (ext : ExternalDecoders) :
    (∀ fields k v rest st, mapLoop (rqStep ext) rqInit fields = .ok st →
      rqFilled st k = true →
      decodeRequirements ext (.obj (fields ++ (k, v) :: rest))
        = .error (.duplicateField k)) ∧
    (∀ fields st, mapLoop (rqStep ext) rqInit fields = .ok st →
      (st.title = none →
        decodeRequirements ext (.obj fields) = .error (.missingField "title")) ∧
      (st.title ≠ none → st.requirement_list = none →
        decodeRequirements ext (.obj fields)
          = .error (.missingField "requirements_list"))) ∧
    (∀ pre post k v, rqRecognized k = false →
      decodeRequirements ext (.obj (pre ++ (k, v) :: post))
        = decodeRequirements ext (.obj (pre ++ post))) ∧
    (∀ fields k v rest st, mapLoop (rmStep ext) rmInit fields = .ok st →
      rmFilled st k = true →
      decodeRequirementModule ext (.obj (fields ++ (k, v) :: rest))
        = .error (.duplicateField k)) ∧
    (∀ fields st, mapLoop (rmStep ext) rmInit fields = .ok st →
      (st.title = none →
        decodeRequirementModule ext (.obj fields) = .error (.missingField "title")) ∧
      (st.title ≠ none → st.requirements = none →
        decodeRequirementModule ext (.obj fields)
          = .error (.missingField "requirements"))) ∧
    (∀ pre post k v, rmRecognized k = false →
      decodeRequirementModule ext (.obj (pre ++ (k, v) :: post))
        = decodeRequirementModule ext (.obj (pre ++ post))) ∧
    (∀ fields k v rest st, mapLoop (reqStep ext) reqInit fields = .ok st →
      reqFilled st k = true →
      decodeRequirement ext (.obj (fields ++ (k, v) :: rest))
        = .error (.duplicateField k)) ∧
    (∀ fields st, mapLoop (reqStep ext) reqInit fields = .ok st →
      (st.title = none →
        decodeRequirement ext (.obj fields) = .error (.missingField "title")) ∧
      (st.title ≠ none → st.req_narrative = none →
        decodeRequirement ext (.obj fields)
          = .error (.missingField "req_narrative"))) ∧
    (∀ pre post k v, reqRecognized k = false →
      decodeRequirement ext (.obj (pre ++ (k, v) :: post))
        = decodeRequirement ext (.obj (pre ++ post))) ∧
    (∀ fields k v rest st, mapLoop ceStep ceInit fields = .ok st →
      ceFilled st k = true →
      decodeCourseEntries ext (.obj (fields ++ (k, v) :: rest))
        = .error (.duplicateField k)) ∧
    (∀ fields st, mapLoop ceStep ceInit fields = .ok st →
      (st.url = none →
        decodeCourseEntries ext (.obj fields) = .error (.missingField "url")) ∧
      (st.url ≠ none → st.path = none →
        decodeCourseEntries ext (.obj fields) = .error (.missingField "path")) ∧
      (st.url ≠ none → st.path ≠ none → st.guid = none →
        decodeCourseEntries ext (.obj fields) = .error (.missingField "guid")) ∧
      (st.url ≠ none → st.path ≠ none → st.guid ≠ none → st.name = none →
        decodeCourseEntries ext (.obj fields) = .error (.missingField "name")) ∧
      (st.url ≠ none → st.path ≠ none → st.guid ≠ none → st.name ≠ none →
        st.number = none →
        decodeCourseEntries ext (.obj fields) = .error (.missingField "number")) ∧
      (st.url ≠ none → st.path ≠ none → st.guid ≠ none → st.name ≠ none →
        st.number ≠ none → st.subject_name = none →
        decodeCourseEntries ext (.obj fields) = .error (.missingField "subject_name")) ∧
      (st.url ≠ none → st.path ≠ none → st.guid ≠ none → st.name ≠ none →
        st.number ≠ none → st.subject_name ≠ none → st.subject_code = none →
        decodeCourseEntries ext (.obj fields) = .error (.missingField "subject_code")) ∧
      (st.url ≠ none → st.path ≠ none → st.guid ≠ none → st.name ≠ none →
        st.number ≠ none → st.subject_name ≠ none → st.subject_code ≠ none →
        st.credits = none →
        decodeCourseEntries ext (.obj fields) = .error (.missingField "credits")) ∧
      (st.url ≠ none → st.path ≠ none → st.guid ≠ none → st.name ≠ none →
        st.number ≠ none → st.subject_name ≠ none → st.subject_code ≠ none →
        st.credits ≠ none → st.is_narrative = none →
        decodeCourseEntries ext (.obj fields) = .error (.missingField "is_narrative"))) ∧
    (∀ pre post k v, ceRecognized k = false →
      decodeCourseEntries ext (.obj (pre ++ (k, v) :: post))
        = decodeCourseEntries ext (.obj (pre ++ post))) ∧
    (∀ fields k v rest st, mapLoop cdStep cdInit fields = .ok st →
      cdFilled st k = true →
      decodeCourseDetails (.obj (fields ++ (k, v) :: rest))
        = .error (.duplicateField (cdDupName k))) ∧
    (∀ fields st, mapLoop cdStep cdInit fields = .ok st →
      (st.url = none →
        decodeCourseDetails (.obj fields) = .error (.missingField "url")) ∧
      (st.url ≠ none → st.path = none →
        decodeCourseDetails (.obj fields) = .error (.missingField "path")) ∧
      (st.url ≠ none → st.path ≠ none → st.subject_code = none →
        decodeCourseDetails (.obj fields) = .error (.missingField "subject_code")) ∧
      (st.url ≠ none → st.path ≠ none → st.subject_code ≠ none →
        st.subject_name = none →
        decodeCourseDetails (.obj fields) = .error (.missingField "subject_name")) ∧
      (st.url ≠ none → st.path ≠ none → st.subject_code ≠ none →
        st.subject_name ≠ none → st.number = none →
        decodeCourseDetails (.obj fields) = .error (.missingField "number")) ∧
      (st.url ≠ none → st.path ≠ none → st.subject_code ≠ none →
        st.subject_name ≠ none → st.number ≠ none → st.name = none →
        decodeCourseDetails (.obj fields) = .error (.missingField "name")) ∧
      (st.url ≠ none → st.path ≠ none → st.subject_code ≠ none →
        st.subject_name ≠ none → st.number ≠ none → st.name ≠ none →
        st.description = none →
        decodeCourseDetails (.obj fields) = .error (.missingField "description")) ∧
      (st.url ≠ none → st.path ≠ none → st.subject_code ≠ none →
        st.subject_name ≠ none → st.number ≠ none → st.name ≠ none →
        st.description ≠ none → st.prerequisite_narrative = none →
        decodeCourseDetails (.obj fields)
          = .error (.missingField "prerequisite_narrative")) ∧
      (st.url ≠ none → st.path ≠ none → st.subject_code ≠ none →
        st.subject_name ≠ none → st.number ≠ none → st.name ≠ none →
        st.description ≠ none → st.prerequisite_narrative ≠ none →
        st.corequisite_narrative = none →
        decodeCourseDetails (.obj fields)
          = .error (.missingField "corequisite_narrative")) ∧
      (st.url ≠ none → st.path ≠ none → st.subject_code ≠ none →
        st.subject_name ≠ none → st.number ≠ none → st.name ≠ none →
        st.description ≠ none → st.prerequisite_narrative ≠ none →
        st.corequisite_narrative ≠ none → st.credits_min = none →
        decodeCourseDetails (.obj fields) = .error (.missingField "credits_min")) ∧
      (st.url ≠ none → st.path ≠ none → st.subject_code ≠ none →
        st.subject_name ≠ none → st.number ≠ none → st.name ≠ none →
        st.description ≠ none → st.prerequisite_narrative ≠ none →
        st.corequisite_narrative ≠ none → st.credits_min = some none →
        st.credits_max = none →
        decodeCourseDetails (.obj fields) = .error (.missingField "credits_max")) ∧
      (st.url ≠ none → st.path ≠ none → st.subject_code ≠ none →
        st.subject_name ≠ none → st.number ≠ none → st.name ≠ none →
        st.description ≠ none → st.prerequisite_narrative ≠ none →
        st.corequisite_narrative ≠ none → st.credits_min = some none →
        st.credits_max = some none → st.prerequisite = none → st.corequisite = none →
        st.guid = none →
        decodeCourseDetails (.obj fields) = .error (.missingField "GUID"))) ∧
    (∀ pre post k v, cdRecognized k = false →
      decodeCourseDetails (.obj (pre ++ (k, v) :: post))
        = decodeCourseDetails (.obj (pre ++ post))) := by
  refine ⟨?_, ?_, ?_, ?_, ?_, ?_, ?_, ?_, ?_, ?_, ?_, ?_, ?_, ?_, ?_⟩
  · intro fields k v rest st hloop hfill
    have hrun := mapLoop_dup_run (rqStep ext) rqInit fields k v rest st _ hloop
      (rqStep_dup ext st k v hfill)
    simp [decodeRequirements, hrun]
  · intro fields st hloop
    constructor
    · intro ht
      simp [decodeRequirements, hloop, rqFinish, ht]
    · intro ht hr
      rcases Option.ne_none_iff_exists'.mp ht with ⟨x, hx⟩
      simp [decodeRequirements, hloop, rqFinish, hx, hr]
  · intro pre post k v hk
    have hrun := mapLoop_skip_run (rqStep ext) rqInit pre post k v
      (fun st => rqStep_skip ext st k v hk)
    simp [decodeRequirements, hrun]
  · intro fields k v rest st hloop hfill
    have hrun := mapLoop_dup_run (rmStep ext) rmInit fields k v rest st _ hloop
      (rmStep_dup ext st k v hfill)
    simp [decodeRequirementModule, hrun]
  · intro fields st hloop
    constructor
    · intro ht
      simp [decodeRequirementModule, hloop, rmFinish, ht]
    · intro ht hr
      rcases Option.ne_none_iff_exists'.mp ht with ⟨x, hx⟩
      simp [decodeRequirementModule, hloop, rmFinish, hx, hr]
  · intro pre post k v hk
    have hrun := mapLoop_skip_run (rmStep ext) rmInit pre post k v
      (fun st => rmStep_skip ext st k v hk)
    simp [decodeRequirementModule, hrun]
  · intro fields k v rest st hloop hfill
    have hrun := mapLoop_dup_run (reqStep ext) reqInit fields k v rest st _ hloop
      (reqStep_dup ext st k v hfill)
    simp [decodeRequirement, decodeRequirementMap, hrun]
  · intro fields st hloop
    constructor
    · intro ht
      simp [decodeRequirement, decodeRequirementMap, hloop, reqFinish, ht]
    · intro ht hr
      rcases Option.ne_none_iff_exists'.mp ht with ⟨x, hx⟩
      simp [decodeRequirement, decodeRequirementMap, hloop, reqFinish, hx, hr]
  · intro pre post k v hk
    have hrun := mapLoop_skip_run (reqStep ext) reqInit pre post k v
      (fun st => reqStep_skip ext st k v hk)
    simp [decodeRequirement, decodeRequirementMap, hrun]
  · intro fields k v rest st hloop hfill
    have hrun := mapLoop_dup_run ceStep ceInit fields k v rest st _ hloop
      (ceStep_dup st k v hfill)
    simp [decodeCourseEntries, decodeCourseEntriesMap, hrun]
  · intro fields st hloop
    have hbase : decodeCourseEntries ext (.obj fields) = ceFinish st := by
      simp [decodeCourseEntries, decodeCourseEntriesMap, hloop]
    refine ⟨?_, ?_, ?_, ?_, ?_, ?_, ?_, ?_, ?_⟩
    · intro h1
      simp [hbase, ceFinish, h1]
    · intro h1 h2
      rcases Option.ne_none_iff_exists'.mp h1 with ⟨x1, e1⟩
      simp [hbase, ceFinish, e1, h2]
    · intro h1 h2 h3
      rcases Option.ne_none_iff_exists'.mp h1 with ⟨x1, e1⟩
      rcases Option.ne_none_iff_exists'.mp h2 with ⟨x2, e2⟩
      simp [hbase, ceFinish, e1, e2, h3]
    · intro h1 h2 h3 h4
      rcases Option.ne_none_iff_exists'.mp h1 with ⟨x1, e1⟩
      rcases Option.ne_none_iff_exists'.mp h2 with ⟨x2, e2⟩
      rcases Option.ne_none_iff_exists'.mp h3 with ⟨x3, e3⟩
      simp [hbase, ceFinish, e1, e2, e3, h4]
    · intro h1 h2 h3 h4 h5
      rcases Option.ne_none_iff_exists'.mp h1 with ⟨x1, e1⟩
      rcases Option.ne_none_iff_exists'.mp h2 with ⟨x2, e2⟩
      rcases Option.ne_none_iff_exists'.mp h3 with ⟨x3, e3⟩
      rcases Option.ne_none_iff_exists'.mp h4 with ⟨x4, e4⟩
      simp [hbase, ceFinish, e1, e2, e3, e4, h5]
    · intro h1 h2 h3 h4 h5 h6
      rcases Option.ne_none_iff_exists'.mp h1 with ⟨x1, e1⟩
      rcases Option.ne_none_iff_exists'.mp h2 with ⟨x2, e2⟩
      rcases Option.ne_none_iff_exists'.mp h3 with ⟨x3, e3⟩
      rcases Option.ne_none_iff_exists'.mp h4 with ⟨x4, e4⟩
      rcases Option.ne_none_iff_exists'.mp h5 with ⟨x5, e5⟩
      simp [hbase, ceFinish, e1, e2, e3, e4, e5, h6]
    · intro h1 h2 h3 h4 h5 h6 h7
      rcases Option.ne_none_iff_exists'.mp h1 with ⟨x1, e1⟩
      rcases Option.ne_none_iff_exists'.mp h2 with ⟨x2, e2⟩
      rcases Option.ne_none_iff_exists'.mp h3 with ⟨x3, e3⟩
      rcases Option.ne_none_iff_exists'.mp h4 with ⟨x4, e4⟩
      rcases Option.ne_none_iff_exists'.mp h5 with ⟨x5, e5⟩
      rcases Option.ne_none_iff_exists'.mp h6 with ⟨x6, e6⟩
      simp [hbase, ceFinish, e1, e2, e3, e4, e5, e6, h7]
    · intro h1 h2 h3 h4 h5 h6 h7 h8
      rcases Option.ne_none_iff_exists'.mp h1 with ⟨x1, e1⟩
      rcases Option.ne_none_iff_exists'.mp h2 with ⟨x2, e2⟩
      rcases Option.ne_none_iff_exists'.mp h3 with ⟨x3, e3⟩
      rcases Option.ne_none_iff_exists'.mp h4 with ⟨x4, e4⟩
      rcases Option.ne_none_iff_exists'.mp h5 with ⟨x5, e5⟩
      rcases Option.ne_none_iff_exists'.mp h6 with ⟨x6, e6⟩
      rcases Option.ne_none_iff_exists'.mp h7 with ⟨x7, e7⟩
      simp [hbase, ceFinish, e1, e2, e3, e4, e5, e6, e7, h8]
    · intro h1 h2 h3 h4 h5 h6 h7 h8 h9
      rcases Option.ne_none_iff_exists'.mp h1 with ⟨x1, e1⟩
      rcases Option.ne_none_iff_exists'.mp h2 with ⟨x2, e2⟩
      rcases Option.ne_none_iff_exists'.mp h3 with ⟨x3, e3⟩
      rcases Option.ne_none_iff_exists'.mp h4 with ⟨x4, e4⟩
      rcases Option.ne_none_iff_exists'.mp h5 with ⟨x5, e5⟩
      rcases Option.ne_none_iff_exists'.mp h6 with ⟨x6, e6⟩
      rcases Option.ne_none_iff_exists'.mp h7 with ⟨x7, e7⟩
      rcases Option.ne_none_iff_exists'.mp h8 with ⟨x8, e8⟩
      simp [hbase, ceFinish, e1, e2, e3, e4, e5, e6, e7, e8, h9]
  · intro pre post k v hk
    have hrun := mapLoop_skip_run ceStep ceInit pre post k v
      (fun st => ceStep_skip st k v hk)
    simp [decodeCourseEntries, decodeCourseEntriesMap, hrun]
  · intro fields k v rest st hloop hfill
    have hrun := mapLoop_dup_run cdStep cdInit fields k v rest st _ hloop
      (cdStep_dup st k v hfill)
    simp [decodeCourseDetails, hrun]
  · intro fields st hloop
    have hbase : decodeCourseDetails (.obj fields) = cdFinish st := by
      simp [decodeCourseDetails, hloop]
    refine ⟨?_, ?_, ?_, ?_, ?_, ?_, ?_, ?_, ?_, ?_, ?_, ?_⟩
    · intro h1
      simp [hbase, cdFinish, h1]
    · intro h1 h2
      rcases Option.ne_none_iff_exists'.mp h1 with ⟨x1, e1⟩
      simp [hbase, cdFinish, e1, h2]
    · intro h1 h2 h3
      rcases Option.ne_none_iff_exists'.mp h1 with ⟨x1, e1⟩
      rcases Option.ne_none_iff_exists'.mp h2 with ⟨x2, e2⟩
      simp [hbase, cdFinish, e1, e2, h3]
    · intro h1 h2 h3 h4
      rcases Option.ne_none_iff_exists'.mp h1 with ⟨x1, e1⟩
      rcases Option.ne_none_iff_exists'.mp h2 with ⟨x2, e2⟩
      rcases Option.ne_none_iff_exists'.mp h3 with ⟨x3, e3⟩
      simp [hbase, cdFinish, e1, e2, e3, h4]
    · intro h1 h2 h3 h4 h5
      rcases Option.ne_none_iff_exists'.mp h1 with ⟨x1, e1⟩
      rcases Option.ne_none_iff_exists'.mp h2 with ⟨x2, e2⟩
      rcases Option.ne_none_iff_exists'.mp h3 with ⟨x3, e3⟩
      rcases Option.ne_none_iff_exists'.mp h4 with ⟨x4, e4⟩
      simp [hbase, cdFinish, e1, e2, e3, e4, h5]
    · intro h1 h2 h3 h4 h5 h6
      rcases Option.ne_none_iff_exists'.mp h1 with ⟨x1, e1⟩
      rcases Option.ne_none_iff_exists'.mp h2 with ⟨x2, e2⟩
      rcases Option.ne_none_iff_exists'.mp h3 with ⟨x3, e3⟩
      rcases Option.ne_none_iff_exists'.mp h4 with ⟨x4, e4⟩
      rcases Option.ne_none_iff_exists'.mp h5 with ⟨x5, e5⟩
      simp [hbase, cdFinish, e1, e2, e3, e4, e5, h6]
    · intro h1 h2 h3 h4 h5 h6 h7
      rcases Option.ne_none_iff_exists'.mp h1 with ⟨x1, e1⟩
      rcases Option.ne_none_iff_exists'.mp h2 with ⟨x2, e2⟩
      rcases Option.ne_none_iff_exists'.mp h3 with ⟨x3, e3⟩
      rcases Option.ne_none_iff_exists'.mp h4 with ⟨x4, e4⟩
      rcases Option.ne_none_iff_exists'.mp h5 with ⟨x5, e5⟩
      rcases Option.ne_none_iff_exists'.mp h6 with ⟨x6, e6⟩
      simp [hbase, cdFinish, e1, e2, e3, e4, e5, e6, h7]
    · intro h1 h2 h3 h4 h5 h6 h7 h8
      rcases Option.ne_none_iff_exists'.mp h1 with ⟨x1, e1⟩
      rcases Option.ne_none_iff_exists'.mp h2 with ⟨x2, e2⟩
      rcases Option.ne_none_iff_exists'.mp h3 with ⟨x3, e3⟩
      rcases Option.ne_none_iff_exists'.mp h4 with ⟨x4, e4⟩
      rcases Option.ne_none_iff_exists'.mp h5 with ⟨x5, e5⟩
      rcases Option.ne_none_iff_exists'.mp h6 with ⟨x6, e6⟩
      rcases Option.ne_none_iff_exists'.mp h7 with ⟨x7, e7⟩
      simp [hbase, cdFinish, e1, e2, e3, e4, e5, e6, e7, h8]
    · intro h1 h2 h3 h4 h5 h6 h7 h8 h9
      rcases Option.ne_none_iff_exists'.mp h1 with ⟨x1, e1⟩
      rcases Option.ne_none_iff_exists'.mp h2 with ⟨x2, e2⟩
      rcases Option.ne_none_iff_exists'.mp h3 with ⟨x3, e3⟩
      rcases Option.ne_none_iff_exists'.mp h4 with ⟨x4, e4⟩
      rcases Option.ne_none_iff_exists'.mp h5 with ⟨x5, e5⟩
      rcases Option.ne_none_iff_exists'.mp h6 with ⟨x6, e6⟩
      rcases Option.ne_none_iff_exists'.mp h7 with ⟨x7, e7⟩
      rcases Option.ne_none_iff_exists'.mp h8 with ⟨x8, e8⟩
      simp [hbase, cdFinish, e1, e2, e3, e4, e5, e6, e7, e8, h9]
    · intro h1 h2 h3 h4 h5 h6 h7 h8 h9 h10
      rcases Option.ne_none_iff_exists'.mp h1 with ⟨x1, e1⟩
      rcases Option.ne_none_iff_exists'.mp h2 with ⟨x2, e2⟩
      rcases Option.ne_none_iff_exists'.mp h3 with ⟨x3, e3⟩
      rcases Option.ne_none_iff_exists'.mp h4 with ⟨x4, e4⟩
      rcases Option.ne_none_iff_exists'.mp h5 with ⟨x5, e5⟩
      rcases Option.ne_none_iff_exists'.mp h6 with ⟨x6, e6⟩
      rcases Option.ne_none_iff_exists'.mp h7 with ⟨x7, e7⟩
      rcases Option.ne_none_iff_exists'.mp h8 with ⟨x8, e8⟩
      rcases Option.ne_none_iff_exists'.mp h9 with ⟨x9, e9⟩
      simp [hbase, cdFinish, e1, e2, e3, e4, e5, e6, e7, e8, e9,
        creditsMinFromSlot, h10]
    · intro h1 h2 h3 h4 h5 h6 h7 h8 h9 h10 h11
      rcases Option.ne_none_iff_exists'.mp h1 with ⟨x1, e1⟩
      rcases Option.ne_none_iff_exists'.mp h2 with ⟨x2, e2⟩
      rcases Option.ne_none_iff_exists'.mp h3 with ⟨x3, e3⟩
      rcases Option.ne_none_iff_exists'.mp h4 with ⟨x4, e4⟩
      rcases Option.ne_none_iff_exists'.mp h5 with ⟨x5, e5⟩
      rcases Option.ne_none_iff_exists'.mp h6 with ⟨x6, e6⟩
      rcases Option.ne_none_iff_exists'.mp h7 with ⟨x7, e7⟩
      rcases Option.ne_none_iff_exists'.mp h8 with ⟨x8, e8⟩
      rcases Option.ne_none_iff_exists'.mp h9 with ⟨x9, e9⟩
      simp [hbase, cdFinish, e1, e2, e3, e4, e5, e6, e7, e8, e9,
        creditsMinFromSlot, creditsMaxFromSlot, h10, h11]
    · intro h1 h2 h3 h4 h5 h6 h7 h8 h9 h10 h11 h12 h13 h14
      rcases Option.ne_none_iff_exists'.mp h1 with ⟨x1, e1⟩
      rcases Option.ne_none_iff_exists'.mp h2 with ⟨x2, e2⟩
      rcases Option.ne_none_iff_exists'.mp h3 with ⟨x3, e3⟩
      rcases Option.ne_none_iff_exists'.mp h4 with ⟨x4, e4⟩
      rcases Option.ne_none_iff_exists'.mp h5 with ⟨x5, e5⟩
      rcases Option.ne_none_iff_exists'.mp h6 with ⟨x6, e6⟩
      rcases Option.ne_none_iff_exists'.mp h7 with ⟨x7, e7⟩
      rcases Option.ne_none_iff_exists'.mp h8 with ⟨x8, e8⟩
      rcases Option.ne_none_iff_exists'.mp h9 with ⟨x9, e9⟩
      simp [hbase, cdFinish, e1, e2, e3, e4, e5, e6, e7, e8, e9,
        creditsMinFromSlot, creditsMaxFromSlot, requisiteFromSlot, h10, h11, h12, h13, h14]
  · intro pre post k v hk
    have hrun := mapLoop_skip_run cdStep cdInit pre post k v
      (fun st => cdStep_skip st k v hk)
    simp [decodeCourseDetails, hrun]

theorem c6_key_policy_witness :
    decodeRequirements extTrivial (.obj [("title", Json.null), ("title", Json.null)])
      = .error (.duplicateField "title") ∧
    decodeRequirementModule extTrivial (.obj []) = .error (.missingField "title") ∧
    decodeRequirement extTrivial (.obj [("title", Json.null)])
      = .error (.missingField "req_narrative") ∧
    decodeCourseEntries extTrivial (.obj []) = .error (.missingField "url") ∧
    decodeCourseDetails (.obj [("GUID", .str "g".data), ("GUID", Json.null)])
      = .error (.duplicateField (cdDupName "GUID")) ∧
    cdDupName "GUID" = "guid" ∧
    decodeCourseDetails (.obj [("unknown_key", Json.bool true)])
      = decodeCourseDetails (.obj []) :=
  ⟨(c6_key_policy extTrivial).1 [("title", Json.null)] "title" Json.null []
      ⟨some none, none, none⟩ rfl rfl,
   ((c6_key_policy extTrivial).2.2.2.2.1 [] rmInit rfl).1 rfl,
   ((c6_key_policy extTrivial).2.2.2.2.2.2.2.1 [("title", Json.null)]
      ⟨some none, none, none⟩ rfl).2 (by simp) rfl,
   ((c6_key_policy extTrivial).2.2.2.2.2.2.2.2.2.2.1 [] ceInit rfl).1 rfl,
   (c6_key_policy extTrivial).2.2.2.2.2.2.2.2.2.2.2.2.1
      [("GUID", .str "g".data)] "GUID" Json.null []
      ⟨none, some "g".data, none, none, none, none, none,
       none, none, none, none, none, none, none⟩ rfl rfl,
   rfl,
   (c6_key_policy extTrivial).2.2.2.2.2.2.2.2.2.2.2.2.2.2
      [] [] "unknown_key" (Json.bool true) (by decide)⟩
